import Mathlib

/-!
# clup: the screen state machine of a terminal client for ClickUp

A shallow embedding of `src/main.go`.  The program is a bubbletea application: one
`model` value, one transition function `Update : model → Msg → model × Cmd`, and a
set of command builders (`fetchSpacesCmd`, `createTaskCmd`, ...) whose results come
back as messages.

What is embedded and how:

* `model`, `viewState`, the remote data types and `priorities` are transcribed from
  the source, field by field.
* A `tea.Cmd` is a closure in Go.  Here it is a value of `Cmd` naming the builder that
  made it together with the arguments it captured; `tea.Batch` is a list from which the
  nil commands have been dropped.  What a command puts on the wire is given by a
  separate function per builder (`createTaskPayload`, `updateTaskPayload`).
* The widgets of the `bubbles` library (`textinput`, `textarea`, `list`, `viewport`,
  `progress`, `spinner`), `lipgloss` and the order in which the Go runtime walks a map
  are not part of the source.  They are a parameter `E : Env`: abstract widget types
  with the operations the program calls.  Theorems hold for every `E`; `bubbles` is one
  concrete environment, used to evaluate the program on concrete inputs.
* A Go runtime panic (index out of range, write to a nil map) is the result `none`.
* A Go `error` value is its message; `nil` is `none`.
-/

set_option linter.dupNamespace false

namespace Clup

/-! ## Remote data (the `CLICKUP API` section of the source) -/

/-- The nested object `Task.Status`. -/
structure TaskStatus where
  Status : String
deriving DecidableEq

/-- The nested object `Task.Space`. -/
structure TaskSpace where
  ID : String
deriving DecidableEq

/-- The nested object `Task.List`. -/
structure TaskList where
  Name : String
  ID : String
deriving DecidableEq

/-- The nested object `Task.Folder`. -/
structure TaskFolder where
  Name : String
deriving DecidableEq

/-- Go `type Task struct`; `Content` is the JSON field `description`. -/
structure Task where
  ID : String
  Name : String
  Content : String
  Status : TaskStatus
  Space : TaskSpace
  List : TaskList
  Folder : TaskFolder
deriving DecidableEq

/-- The zero value `Task{}`. -/
def Task.zero : Task :=
  { ID := "", Name := "", Content := "", Status := ⟨""⟩, Space := ⟨""⟩,
    List := ⟨"", ""⟩, Folder := ⟨""⟩ }

/-- Go `type Space struct`. -/
structure Space where
  ID : String
  Name : String
deriving DecidableEq

/-- Go `type ListInfo struct`. -/
structure ListInfo where
  ID : String
  Name : String
deriving DecidableEq

/-- Go `type Folder struct`. -/
structure Folder where
  ID : String
  Name : String
  Lists : List ListInfo
deriving DecidableEq

/-- Go `type Status struct`. -/
structure Status where
  Status : String
  Order : Int
  Color : String
deriving DecidableEq

/-- One element of `Comment.Comment`. -/
structure CommentPart where
  Text : String
deriving DecidableEq

/-- The nested object `Comment.User`. -/
structure CommentUser where
  Username : String
deriving DecidableEq

/-- Go `type Comment struct`. -/
structure Comment where
  ID : String
  Comment : List CommentPart
  Date : String
  User : CommentUser
deriving DecidableEq

/-- Go `type Member struct`. -/
structure Member where
  ID : Int
  Username : String
  Email : String
deriving DecidableEq

/-- Go `type Priority struct`. -/
structure Priority where
  Name : String
  Value : Int
  Color : String
deriving DecidableEq

/-- A `list.Item`: the interface value, tagged with its dynamic type.  A type assertion
`x.(Space)` is a match on the constructor. -/
inductive Item where
  | space (s : Space)
  | listInfo (l : ListInfo)
  | status (s : Status)
  | member (m : Member)
  | priority (p : Priority)
  | task (t : Task)
deriving DecidableEq

/-- Go `var priorities`. -/
def priorities : List Item :=
  [ Item.priority { Name := "Urgent", Value := 1, Color := "#ff0000" },
    Item.priority { Name := "High", Value := 2, Color := "#ff8000" },
    Item.priority { Name := "Normal", Value := 3, Color := "#00aaff" },
    Item.priority { Name := "Low", Value := 4, Color := "#d3d3d3" },
    Item.priority { Name := "None", Value := 0, Color := "#ffffff" } ]

/-! ## Events and commands -/

/-- The `tea.KeyType` values the program tests for, and the rest. -/
inductive KeyType where
  | KeyRunes
  | KeyEnter
  | KeyEsc
  | KeyTab
  | KeyCtrlC
  | KeyCtrlD
  | KeyOther (code : Nat)
deriving DecidableEq

/-- A `tea.KeyMsg`, by the two things the program reads from it: `msg.Type` and
`msg.String()`. -/
structure Key where
  keyType : KeyType
  str : String
deriving DecidableEq

/-- A `tea.Msg`, tagged with its dynamic type.  `items` is `[]list.Item`, `task` is
`Task`, `error` is a non-nil `error`, `string` is a `string` (the sentinels),
`other` is any message type the program has no case for. -/
inductive Msg where
  | WindowSizeMsg (Width Height : Int)
  | KeyMsg (k : Key)
  | SpacesResponse (Spaces : List Space)
  | ListsResponse (Lists : List ListInfo)
  | FoldersResponse (Folders : List Folder)
  | StatusesResponse (Statuses : List Status)
  | MembersResponse (Members : List Member)
  | CommentsResponse (Comments : List Comment)
  | items (xs : List Item)
  | task (t : Task)
  | error (e : String)
  | string (s : String)
  | tickMsg
  | spinnerTickMsg (tag : Nat)
  | progressFrameMsg (tag : Nat)
  | other (tag : Nat)
deriving DecidableEq

/-- A command returned by a widget: `tea.Quit` (the list widget returns it on its quit
keys) or a widget-internal command (cursor blink, filter, animation frame). -/
inductive LibCmd where
  | quit
  | internal (tag : Nat)
deriving DecidableEq

/-- A non-nil `tea.Cmd`: the builder that made the closure and what it captured.
`tickNow` is `func() tea.Msg { return tickMsg(time.Now()) }`, `tickAfter` the same
after `time.Sleep(200ms)`, `Blink` is `textinput.Blink`. -/
inductive Cmd where
  | fetchSpacesCmd (apiToken teamID : String)
  | fetchFolderlessListsCmd (apiToken spaceID : String)
  | fetchFoldersWithListsCmd (apiToken spaceID : String)
  | fetchAssigneesCmd (apiToken listID : String)
  | createTaskCmd (apiToken listID name description status : String)
      (assignees : List Int) (priority : Int)
  | fetchTasksCmd (apiToken teamID spaceID : String)
  | fetchTaskDetailsCmd (apiToken taskID : String)
  | fetchCommentsCmd (apiToken taskID : String)
  | fetchStatusesCmd (apiToken spaceID : String)
  | postCommentCmd (apiToken taskID commentText : String)
  | updateTaskCmd (apiToken taskID description status : String)
  | deleteTaskCmd (apiToken taskID : String)
  | saveCredentialsCmd (apiToken teamID : String)
  | Quit
  | tickNow
  | tickAfter
  | Blink
  | widget (tag : Nat)
deriving DecidableEq

/-- A widget command as a `tea.Cmd`. -/
def LibCmd.toCmd : LibCmd → Cmd
  | LibCmd.quit => Cmd.Quit
  | LibCmd.internal tag => Cmd.widget tag

/-- The `tea.Cmd` a widget call returned: nil or a command. -/
def libCmd (c : Option LibCmd) : Option Cmd :=
  c.map LibCmd.toCmd

/-- Go `tea.Batch(cmds...)`: the nil commands are dropped; an empty batch is nil. -/
def batch (cmds : List (Option Cmd)) : List Cmd :=
  cmds.filterMap id

/-- Whether a command talks to the remote service or writes the credential file. -/
def Cmd.isRemoteOrPersist : Cmd → Bool
  | Cmd.Quit => false
  | Cmd.tickNow => false
  | Cmd.tickAfter => false
  | Cmd.Blink => false
  | Cmd.widget _ => false
  | _ => true

/-! ## Request payloads -/

/-- A value of the `map[string]interface{}` built by `createTaskCmd`. -/
inductive JVal where
  | str (s : String)
  | num (n : Int)
  | ints (xs : List Int)
deriving DecidableEq

/-- The keys of a payload map. -/
def keysOf {α : Type} (payloadMap : List (String × α)) : List String :=
  payloadMap.map Prod.fst

/-- Go `createTaskCmd`, the `payloadMap` it marshals: four keys always, `priority` only
when `priority > 0`. -/
def createTaskPayload (name description status : String) (assignees : List Int)
    (priority : Int) : List (String × JVal) :=
  let payloadMap : List (String × JVal) :=
    [ ("name", JVal.str name), ("description", JVal.str description),
      ("status", JVal.str status), ("assignees", JVal.ints assignees) ]
  if priority > 0 then payloadMap ++ [("priority", JVal.num priority)] else payloadMap

/-- Go `updateTaskCmd`, the `payloadMap` (a `map[string]string`) it builds: a key for
each argument that is not the empty string. -/
def updateTaskPayload (description status : String) : List (String × String) :=
  let payloadMap : List (String × String) := []
  let payloadMap := if description ≠ "" then payloadMap ++ [("description", description)]
    else payloadMap
  let payloadMap := if status ≠ "" then payloadMap ++ [("status", status)] else payloadMap
  payloadMap

/-- Go `updateTaskCmd`, the body of the PUT request it sends: none when the payload map
is empty (`if len(payloadMap) == 0 { return nil }`, before any request is made). -/
def updateTaskSent (description status : String) : Option (List (String × String)) :=
  let payloadMap := updateTaskPayload description status
  if payloadMap.length = 0 then none else some payloadMap

/-- Whether a command was built by `updateTaskCmd`. -/
def Cmd.isUpdateTask : Cmd → Bool
  | Cmd.updateTaskCmd _ _ _ _ => true
  | _ => false

/-! ## The environment: widgets, styles, map order -/

/-- The lipgloss styles the program assigns to widgets. `cursorStyle` is
`focusedStyle` in the source. -/
inductive Style where
  | focusedStyle
  | blurredStyle
  | noStyle
deriving DecidableEq

/-- Go `cursorStyle = focusedStyle`. -/
def cursorStyle : Style := Style.focusedStyle

/-- The item delegates handed to `list.New`: the library default and the three of the
source.  `assigneeDelegate` holds the selection map (nil is `none`). -/
inductive Delegate where
  | default
  | statusDelegate
  | assigneeDelegate (selected : Option (Finset Int))
  | priorityDelegate
deriving DecidableEq

/-- The libraries the program is linked with and the runtime choices it depends on.
Each field is one call the source makes; the names are the Go names. Setters of public
fields (`sl.Title = ...`) are functions too.  `zero` values are Go zero values of the
widget structs (the `model` literal leaves most widgets unset). -/
structure Env where
  TextInput : Type
  TextArea : Type
  ListModel : Type
  Viewport : Type
  Progress : Type
  Spinner : Type
  textinput_zero : TextInput
  textinput_New : TextInput
  textinput_SetPlaceholder : String → TextInput → TextInput
  textinput_SetPrompt : String → TextInput → TextInput
  textinput_SetCharLimit : Int → TextInput → TextInput
  textinput_SetPromptStyle : Style → TextInput → TextInput
  textinput_SetCursorStyle : Style → TextInput → TextInput
  textinput_Focus : TextInput → TextInput × Option LibCmd
  textinput_Blur : TextInput → TextInput
  textinput_Value : TextInput → String
  textinput_Reset : TextInput → TextInput
  textinput_Update : Msg → TextInput → TextInput × Option LibCmd
  textarea_zero : TextArea
  textarea_New : TextArea
  textarea_SetPlaceholder : String → TextArea → TextArea
  textarea_Focus : TextArea → TextArea × Option LibCmd
  textarea_Blur : TextArea → TextArea
  textarea_Focused : TextArea → Bool
  textarea_Value : TextArea → String
  textarea_SetValue : String → TextArea → TextArea
  textarea_Update : Msg → TextArea → TextArea × Option LibCmd
  list_zero : ListModel
  list_New : List Item → Delegate → Int → Int → ListModel
  list_SetTitle : String → ListModel → ListModel
  list_SetSize : Int → Int → ListModel → ListModel
  list_SetItems : List Item → ListModel → ListModel × Option LibCmd
  list_SetDelegate : Delegate → ListModel → ListModel
  list_SetShowHelp : Bool → ListModel → ListModel
  list_SetShowStatusBar : Bool → ListModel → ListModel
  list_SetFilteringEnabled : Bool → ListModel → ListModel
  list_SetAdditionalShortHelpKeys : List (String × String) → ListModel → ListModel
  list_SelectedItem : ListModel → Option Item
  list_Filtering : ListModel → Bool
  list_Update : Msg → ListModel → ListModel × Option LibCmd
  viewport_zero : Viewport
  viewport_New : Int → Int → Viewport
  viewport_SetWidth : Int → Viewport → Viewport
  viewport_SetHeight : Int → Viewport → Viewport
  viewport_SetContent : String → Viewport → Viewport
  viewport_Update : Msg → Viewport → Viewport × Option LibCmd
  progress_zero : Progress
  progress_New : Progress
  progress_Percent : Progress → Rat
  progress_IncrPercent : Rat → Progress → Progress × Option LibCmd
  progress_Update : Msg → Progress → Progress × Option LibCmd
  spinner_zero : Spinner
  spinner_Tick : Spinner → LibCmd
  spinner_Update : Msg → Spinner → Spinner × Option LibCmd
  appStyle_GetFrameSize : Int × Int
  titleStyle_Render : String → String
  formatDate : String → String
  mapRange : Finset Int → List Int

/-! ## The model -/

/-- Go `type viewState int` with its fifteen constants. -/
inductive viewState where
  | formView
  | spaceSelectionView
  | listView
  | statusUpdateView
  | taskDetailView
  | editTaskView
  | listSelectionView
  | createTaskTitleView
  | createTaskDescView
  | createTaskStatusView
  | createTaskAssigneeView
  | createTaskPriorityView
  | taskCreatedView
  | deleteConfirmationView
  | taskDeletedView
deriving DecidableEq

/-- Go `type model struct`.  `err` is `none` for a nil error; `selectedAssignees` is
`none` for a nil map; a nil slice is the empty list. -/
structure model (E : Env) where
  state : viewState
  err : Option String
  quitting : Bool
  width : Int
  height : Int
  loading : Bool
  insertMode : Bool
  commandMode : Bool
  isCreatingTask : Bool
  spinner : E.Spinner
  progress : E.Progress
  focusIndex : Int
  createFocusIndex : Int
  inputs : List E.TextInput
  list : E.ListModel
  spaceList : E.ListModel
  folderlessList : E.ListModel
  statusList : E.ListModel
  assigneeList : E.ListModel
  priorityList : E.ListModel
  viewport : E.Viewport
  descriptionBox : E.TextArea
  commentBox : E.TextInput
  commandInput : E.TextInput
  titleInput : E.TextInput
  statusMessage : String
  apiToken : String
  teamID : String
  spaceID : String
  listID : String
  newTaskTitle : String
  newTaskDesc : String
  newTaskStatus : String
  newTaskAssignees : List Int
  newTaskPriority : Int
  selectedTask : Task
  selectedStatus : String
  selectedAssignees : Option (Finset Int)
  comments : List Comment
  commentsLoaded : Bool
  allLists : List Item

/-- The zero value `model{}`. -/
def model.zero (E : Env) : model E :=
  { state := viewState.formView, err := none, quitting := false, width := 0, height := 0,
    loading := false, insertMode := false, commandMode := false, isCreatingTask := false,
    spinner := E.spinner_zero, progress := E.progress_zero, focusIndex := 0,
    createFocusIndex := 0, inputs := [], list := E.list_zero, spaceList := E.list_zero,
    folderlessList := E.list_zero, statusList := E.list_zero,
    assigneeList := E.list_zero, priorityList := E.list_zero,
    viewport := E.viewport_zero, descriptionBox := E.textarea_zero,
    commentBox := E.textinput_zero, commandInput := E.textinput_zero,
    titleInput := E.textinput_zero, statusMessage := "", apiToken := "", teamID := "",
    spaceID := "", listID := "", newTaskTitle := "", newTaskDesc := "",
    newTaskStatus := "", newTaskAssignees := [], newTaskPriority := 0,
    selectedTask := Task.zero, selectedStatus := "", selectedAssignees := none,
    comments := [], commentsLoaded := false, allLists := [] }

/-- The list built at the two places that enter the space picker:
`list.New([]list.Item{}, list.NewDefaultDelegate(), 0, 0)` with its title. -/
def newSpaceList (E : Env) : E.ListModel :=
  E.list_SetTitle "Select a Space" (E.list_New [] Delegate.default 0 0)

/-- Go `newModel`. -/
def newModel (E : Env) (apiToken teamID : String) (creatingTask : Bool) : model E :=
  if apiToken = "" ∨ teamID = "" then
    let t0 := E.textinput_SetCharLimit 128 (E.textinput_SetCursorStyle cursorStyle E.textinput_New)
    let i0 := E.textinput_SetPromptStyle Style.focusedStyle
      (E.textinput_Focus (E.textinput_SetPlaceholder "ClickUp API Token" t0)).1
    let i1 := E.textinput_SetPlaceholder "Team ID" t0
    { model.zero E with state := viewState.formView, inputs := [i0, i1] }
  else
    { model.zero E with
      state := viewState.spaceSelectionView
      spaceList := newSpaceList E
      apiToken := apiToken
      teamID := teamID
      isCreatingTask := creatingTask
      selectedAssignees := some ∅ }

/-- Go `model.Init`. -/
def Init (E : Env) (m : model E) : List Cmd :=
  match m.state with
  | viewState.spaceSelectionView => [Cmd.fetchSpacesCmd m.apiToken m.teamID]
  | viewState.listView => [Cmd.fetchTasksCmd m.apiToken m.teamID m.spaceID]
  | viewState.listSelectionView =>
    batch [some (Cmd.fetchFolderlessListsCmd m.apiToken m.spaceID),
      some (Cmd.fetchFoldersWithListsCmd m.apiToken m.spaceID)]
  | _ => [Cmd.Blink]

/-! ## The transition function -/

/-- The resize case of every list screen:
`h, v := appStyle.GetFrameSize(); l.SetSize(msg.Width-h, msg.Height-v)`. -/
def setFrameSize (E : Env) (Width Height : Int) (l : E.ListModel) : E.ListModel :=
  E.list_SetSize (Width - E.appStyle_GetFrameSize.1) (Height - E.appStyle_GetFrameSize.2) l

/-- The loop `for i := range m.inputs` of `updateForm` after a focus move: the input at
`focusIndex` gets `Focus()` and the focused prompt style, every other input `Blur()`
and no style.  The second component is `cmds[i]`. -/
def focusInputs (E : Env) (focusIndex : Int) :
    Nat → List E.TextInput → List (E.TextInput × Option LibCmd)
  | _, [] => []
  | i, t :: ts =>
    (if (i : Int) = focusIndex then
      (E.textinput_SetPromptStyle Style.focusedStyle (E.textinput_Focus t).1,
        (E.textinput_Focus t).2)
    else
      (E.textinput_SetPromptStyle Style.noStyle (E.textinput_Blur t), none))
      :: focusInputs E focusIndex (i + 1) ts

/-- The last loop of `updateForm`: every input gets the message. -/
def updateInputs (E : Env) (msg : Msg) (m : model E) : model E × List Cmd :=
  ({ m with inputs := m.inputs.map fun t => (E.textinput_Update msg t).1 },
    batch (m.inputs.map fun t => libCmd (E.textinput_Update msg t).2))

/-- Go `updateForm`.  `m.inputs[0]` and `m.inputs[1]` panic on a shorter slice. -/
def updateForm (E : Env) (msg : Msg) (m : model E) : Option (model E × List Cmd) :=
  match msg with
  | Msg.KeyMsg k =>
    if k.str = "tab" ∨ k.str = "shift+tab" ∨ k.str = "enter" ∨ k.str = "up"
        ∨ k.str = "down" then
      if k.str = "enter" ∧ m.focusIndex = (m.inputs.length : Int) - 1 then
        match m.inputs with
        | i0 :: i1 :: _ =>
          some ({ m with
              apiToken := E.textinput_Value i0
              teamID := E.textinput_Value i1
              state := viewState.spaceSelectionView
              spaceList := newSpaceList E },
            batch [some (Cmd.saveCredentialsCmd (E.textinput_Value i0) (E.textinput_Value i1)),
              some (Cmd.fetchSpacesCmd (E.textinput_Value i0) (E.textinput_Value i1))])
        | _ => none
      else
        let moved : Int :=
          if k.str = "up" ∨ k.str = "shift+tab" then m.focusIndex - 1 else m.focusIndex + 1
        let focusIndex : Int :=
          if moved > (m.inputs.length : Int) then 0
          else if moved < 0 then (m.inputs.length : Int) - 1
          else moved
        let rs := focusInputs E focusIndex 0 m.inputs
        some ({ m with focusIndex := focusIndex, inputs := rs.map Prod.fst },
          batch (rs.map fun r => libCmd r.2))
    else some (updateInputs E msg m)
  | _ => some (updateInputs E msg m)

/-- The task list built by `updateSpaceSelection` when a space is entered for browsing. -/
def newTaskList (E : Env) (m : model E) (selected : Space) : E.ListModel :=
  E.list_SetAdditionalShortHelpKeys [("v", "view"), ("e", "edit"), ("d", "delete")]
    (E.list_SetFilteringEnabled true
      (E.list_SetShowStatusBar true
        (E.list_SetTitle ("Tasks in " ++ selected.Name)
          (E.list_New [] Delegate.default (m.width - E.appStyle_GetFrameSize.1)
            (m.height - E.appStyle_GetFrameSize.2)))))

/-- Go `updateSpaceSelection`. -/
def updateSpaceSelection (E : Env) (msg : Msg) (m : model E) : model E × List Cmd :=
  let rest (m : model E) : model E × List Cmd :=
    ({ m with spaceList := (E.list_Update msg m.spaceList).1 },
      batch [libCmd (E.list_Update msg m.spaceList).2])
  match msg with
  | Msg.WindowSizeMsg Width Height =>
    rest { m with spaceList := setFrameSize E Width Height m.spaceList }
  | Msg.SpacesResponse Spaces =>
    rest { m with spaceList := (E.list_SetItems (Spaces.map Item.space) m.spaceList).1 }
  | Msg.error e => ({ m with err := some e }, [Cmd.Quit])
  | Msg.KeyMsg k =>
    if k.str = "enter" then
      match E.list_SelectedItem m.spaceList with
      | some (Item.space selected) =>
        if m.isCreatingTask then
          ({ m with
              spaceID := selected.ID
              state := viewState.listSelectionView
              folderlessList := E.list_SetTitle ("Select a List in " ++ selected.Name)
                (E.list_New [] Delegate.default m.width m.height) },
            batch [some (Cmd.fetchFolderlessListsCmd m.apiToken selected.ID),
              some (Cmd.fetchFoldersWithListsCmd m.apiToken selected.ID)])
        else
          ({ m with
              spaceID := selected.ID
              state := viewState.listView
              list := newTaskList E m selected },
            [Cmd.fetchTasksCmd m.apiToken m.teamID selected.ID])
      | _ => rest m
    else rest m
  | _ => rest m

/-- The inner loop of the `FoldersResponse` case: the lists of one folder, each renamed
`fmt.Sprintf("%s / %s", f.Name, l.Name)`. -/
def folderLists (f : Folder) : List Item :=
  f.Lists.map fun l => Item.listInfo { l with Name := f.Name ++ " / " ++ l.Name }

/-- Go `updateListSelection`. -/
def updateListSelection (E : Env) (msg : Msg) (m : model E) : model E × List Cmd :=
  let rest (m : model E) : model E × List Cmd :=
    ({ m with folderlessList := (E.list_Update msg m.folderlessList).1 },
      batch [libCmd (E.list_Update msg m.folderlessList).2])
  match msg with
  | Msg.WindowSizeMsg Width Height =>
    rest { m with folderlessList := setFrameSize E Width Height m.folderlessList }
  | Msg.ListsResponse Lists =>
    let allLists := m.allLists ++ Lists.map Item.listInfo
    rest { m with
      allLists := allLists
      folderlessList := (E.list_SetItems allLists m.folderlessList).1 }
  | Msg.FoldersResponse Folders =>
    let allLists := m.allLists ++ (Folders.map folderLists).flatten
    rest { m with
      allLists := allLists
      folderlessList := (E.list_SetItems allLists m.folderlessList).1 }
  | Msg.error e => ({ m with err := some e }, [Cmd.Quit])
  | Msg.KeyMsg k =>
    if k.str = "enter" then
      match E.list_SelectedItem m.folderlessList with
      | some (Item.listInfo selected) =>
        ({ m with
            listID := selected.ID
            state := viewState.createTaskTitleView
            titleInput := (E.textinput_Focus
              (E.textinput_SetPlaceholder "Task Title" E.textinput_New)).1 },
          [])
      | _ => rest m
    else rest m
  | _ => rest m

/-- Go `updateCreateTaskTitle`. -/
def updateCreateTaskTitle (E : Env) (msg : Msg) (m : model E) : model E × List Cmd :=
  let rest (m : model E) : model E × List Cmd :=
    ({ m with titleInput := (E.textinput_Update msg m.titleInput).1 },
      batch [libCmd (E.textinput_Update msg m.titleInput).2])
  match msg with
  | Msg.KeyMsg k =>
    if k.str = "enter" then
      ({ m with
          newTaskTitle := E.textinput_Value m.titleInput
          state := viewState.createTaskDescView
          descriptionBox := (E.textarea_Focus
            (E.textarea_SetPlaceholder "Task Description" E.textarea_New)).1 },
        [])
    else rest m
  | _ => rest m

/-- Go `updateCreateTaskDesc`. -/
def updateCreateTaskDesc (E : Env) (msg : Msg) (m : model E) : model E × List Cmd :=
  let rest (m : model E) : model E × List Cmd :=
    ({ m with descriptionBox := (E.textarea_Update msg m.descriptionBox).1 },
      batch [libCmd (E.textarea_Update msg m.descriptionBox).2])
  match msg with
  | Msg.KeyMsg k =>
    if k.keyType = KeyType.KeyCtrlD then
      ({ m with
          newTaskDesc := E.textarea_Value m.descriptionBox
          state := viewState.createTaskStatusView
          statusList := E.list_SetShowHelp false
            (E.list_SetTitle "Select Status"
              (E.list_New [] Delegate.statusDelegate (m.width - E.appStyle_GetFrameSize.1)
                (m.height - E.appStyle_GetFrameSize.2))) },
        [Cmd.fetchStatusesCmd m.apiToken m.spaceID])
    else rest m
  | _ => rest m

/-- Go `updateCreateTaskStatus`. -/
def updateCreateTaskStatus (E : Env) (msg : Msg) (m : model E) : model E × List Cmd :=
  let rest (m : model E) : model E × List Cmd :=
    ({ m with statusList := (E.list_Update msg m.statusList).1 },
      batch [libCmd (E.list_Update msg m.statusList).2])
  match msg with
  | Msg.WindowSizeMsg Width Height =>
    rest { m with statusList := setFrameSize E Width Height m.statusList }
  | Msg.StatusesResponse Statuses =>
    rest { m with statusList := (E.list_SetItems (Statuses.map Item.status) m.statusList).1 }
  | Msg.KeyMsg k =>
    if k.str = "enter" then
      match E.list_SelectedItem m.statusList with
      | some (Item.status selected) =>
        ({ m with
            newTaskStatus := selected.Status
            state := viewState.createTaskAssigneeView
            assigneeList :=
              E.list_SetTitle "Select Assignees (space to select, enter to confirm)"
                (E.list_New [] (Delegate.assigneeDelegate m.selectedAssignees)
                  (m.width - E.appStyle_GetFrameSize.1)
                  (m.height - E.appStyle_GetFrameSize.2)) },
          [Cmd.fetchAssigneesCmd m.apiToken m.listID])
      | _ => rest m
    else rest m
  | _ => rest m

/-- The `if _, exists := m.selectedAssignees[id]` of `updateCreateTaskAssignee`: delete
the identifier when present, add it when absent. -/
def toggleAssignee (selectedAssignees : Finset Int) (id : Int) : Finset Int :=
  if id ∈ selectedAssignees then selectedAssignees.erase id else insert id selectedAssignees

/-- Go `updateCreateTaskAssignee`.  Adding to a nil map panics; ranging over one does
nothing. -/
def updateCreateTaskAssignee (E : Env) (msg : Msg) (m : model E) :
    Option (model E × List Cmd) :=
  let rest (m : model E) : model E × List Cmd :=
    ({ m with assigneeList := (E.list_Update msg m.assigneeList).1 },
      batch [libCmd (E.list_Update msg m.assigneeList).2])
  match msg with
  | Msg.WindowSizeMsg Width Height =>
    some (rest { m with assigneeList := setFrameSize E Width Height m.assigneeList })
  | Msg.MembersResponse Members =>
    some (rest { m with
      assigneeList := (E.list_SetItems (Members.map Item.member) m.assigneeList).1 })
  | Msg.KeyMsg k =>
    if k.str = " " then
      match E.list_SelectedItem m.assigneeList with
      | some (Item.member selected) =>
        match m.selectedAssignees with
        | none => none
        | some s =>
          some (rest { m with
            selectedAssignees := some (toggleAssignee s selected.ID)
            assigneeList := E.list_SetDelegate
              (Delegate.assigneeDelegate (some (toggleAssignee s selected.ID)))
              m.assigneeList })
      | _ => some (rest m)
    else if k.str = "enter" then
      some ({ m with
          newTaskAssignees := m.newTaskAssignees ++
            (match m.selectedAssignees with
              | none => []
              | some s => E.mapRange s)
          state := viewState.createTaskPriorityView
          priorityList := E.list_SetTitle "Select Priority"
            (E.list_New priorities Delegate.priorityDelegate
              (m.width - E.appStyle_GetFrameSize.1)
              (m.height - E.appStyle_GetFrameSize.2)) },
        [])
    else some (rest m)
  | _ => some (rest m)

/-- Go `updateCreateTaskPriority`. -/
def updateCreateTaskPriority (E : Env) (msg : Msg) (m : model E) : model E × List Cmd :=
  let rest (m : model E) : model E × List Cmd :=
    ({ m with priorityList := (E.list_Update msg m.priorityList).1 },
      batch [libCmd (E.list_Update msg m.priorityList).2])
  match msg with
  | Msg.WindowSizeMsg Width Height =>
    rest { m with priorityList := setFrameSize E Width Height m.priorityList }
  | Msg.KeyMsg k =>
    if k.str = "enter" then
      match E.list_SelectedItem m.priorityList with
      | some (Item.priority selected) =>
        ({ m with newTaskPriority := selected.Value },
          [Cmd.createTaskCmd m.apiToken m.listID m.newTaskTitle m.newTaskDesc
            m.newTaskStatus m.newTaskAssignees selected.Value])
      | _ => rest m
    else rest m
  | Msg.string s =>
    if s = "create_success" then
      ({ m with state := viewState.taskCreatedView, progress := E.progress_New },
        [Cmd.tickNow])
    else rest m
  | _ => rest m

/-- Go `updateTaskCreated`. -/
def updateTaskCreated (E : Env) (msg : Msg) (m : model E) : model E × List Cmd :=
  match msg with
  | Msg.tickMsg =>
    if E.progress_Percent m.progress = 1 then ({ m with quitting := true }, [Cmd.Quit])
    else
      ({ m with progress := (E.progress_IncrPercent (1 / 4) m.progress).1 },
        batch [libCmd (E.progress_IncrPercent (1 / 4) m.progress).2, some Cmd.tickAfter])
  | Msg.progressFrameMsg _ =>
    ({ m with progress := (E.progress_Update msg m.progress).1 },
      batch [libCmd (E.progress_Update msg m.progress).2])
  | _ => (m, [])

/-- Go `updateList`. -/
def updateList (E : Env) (msg : Msg) (m : model E) : model E × List Cmd :=
  let rest (m : model E) : model E × List Cmd :=
    ({ m with list := (E.list_Update msg m.list).1 },
      batch [libCmd (E.list_Update msg m.list).2])
  match msg with
  | Msg.WindowSizeMsg Width Height =>
    rest { m with list := setFrameSize E Width Height m.list }
  | Msg.spinnerTickMsg _ =>
    if m.loading then
      ({ m with spinner := (E.spinner_Update msg m.spinner).1 },
        batch [libCmd (E.spinner_Update msg m.spinner).2])
    else rest m
  | Msg.items xs =>
    rest { m with loading := false, list := (E.list_SetItems xs m.list).1 }
  | Msg.error e => ({ m with err := some e }, [Cmd.Quit])
  | Msg.KeyMsg k =>
    if E.list_Filtering m.list then rest m
    else if k.str = "d" then
      match E.list_SelectedItem m.list with
      | some (Item.task selected) =>
        rest { m with selectedTask := selected, state := viewState.deleteConfirmationView }
      | _ => rest m
    else if k.str = "e" then
      match E.list_SelectedItem m.list with
      | some (Item.task selected) =>
        ({ m with
            state := viewState.editTaskView
            insertMode := false
            selectedTask := selected
            selectedStatus := selected.Status.Status
            descriptionBox := E.textarea_SetValue selected.Content E.textarea_New
            commentBox := E.textinput_SetPlaceholder "New comment..." E.textinput_New
            commandInput := E.textinput_SetCharLimit 5
              (E.textinput_SetPrompt ":" E.textinput_New) },
          [])
      | _ => rest m
    else if k.str = "v" then
      match E.list_SelectedItem m.list with
      | some (Item.task selected) =>
        ({ m with
            state := viewState.taskDetailView
            selectedTask := Task.zero
            comments := []
            commentsLoaded := false
            viewport := E.viewport_SetContent "Loading task details and comments..."
              (E.viewport_New (m.width - 2) (m.height - 2)) },
          batch [some (Cmd.fetchTaskDetailsCmd m.apiToken selected.ID),
            some (Cmd.fetchCommentsCmd m.apiToken selected.ID)])
      | _ => rest m
    else rest m
  | Msg.string s =>
    if s = "refresh_list_success" then
      ({ m with loading := true },
        batch [some (E.spinner_Tick m.spinner).toCmd,
          some (Cmd.fetchTasksCmd m.apiToken m.teamID m.spaceID)])
    else rest m
  | _ => rest m

/-- Go `updateStatusUpdate`. -/
def updateStatusUpdate (E : Env) (msg : Msg) (m : model E) : model E × List Cmd :=
  let rest (m : model E) : model E × List Cmd :=
    ({ m with statusList := (E.list_Update msg m.statusList).1 },
      batch [libCmd (E.list_Update msg m.statusList).2])
  match msg with
  | Msg.WindowSizeMsg Width Height =>
    rest { m with statusList := setFrameSize E Width Height m.statusList }
  | Msg.StatusesResponse Statuses =>
    rest { m with statusList := (E.list_SetItems (Statuses.map Item.status) m.statusList).1 }
  | Msg.error e => ({ m with err := some e }, [Cmd.Quit])
  | Msg.KeyMsg k =>
    if k.str = "esc" then ({ m with state := viewState.editTaskView }, [])
    else if k.str = "enter" then
      match E.list_SelectedItem m.statusList with
      | some (Item.status selected) =>
        rest { m with state := viewState.editTaskView, selectedStatus := selected.Status }
      | _ => rest m
    else rest m
  | _ => rest m

/-- The text `updateTaskDetail` builds for the viewport once a task is loaded. -/
def detailContent (E : Env) (m : model E) : String :=
  E.titleStyle_Render m.selectedTask.Name ++ "\n"
    ++ ("Status: " ++ m.selectedTask.Status.Status ++ "\n\n---\n\n" ++ m.selectedTask.Content)
    ++ (if m.commentsLoaded then
          "\n\n---\n\n" ++ E.titleStyle_Render "Comments" ++ "\n\n"
            ++ (if m.comments.length = 0 then "No comments on this task."
                else String.join (m.comments.map fun comment =>
                  ("From: " ++ comment.User.Username ++ " (" ++ E.formatDate comment.Date
                    ++ ")\n")
                  ++ String.join (comment.Comment.map fun part => part.Text) ++ "\n\n"))
        else "")

/-- Go `updateTaskDetail`. -/
def updateTaskDetail (E : Env) (msg : Msg) (m : model E) : model E × List Cmd :=
  let rest (m : model E) : model E × List Cmd :=
    let viewport :=
      if m.selectedTask.ID ≠ "" then E.viewport_SetContent (detailContent E m) m.viewport
      else m.viewport
    ({ m with viewport := (E.viewport_Update msg viewport).1 },
      batch [libCmd (E.viewport_Update msg viewport).2])
  match msg with
  | Msg.WindowSizeMsg Width Height =>
    rest { m with
      viewport := E.viewport_SetHeight (Height - 2) (E.viewport_SetWidth (Width - 2) m.viewport) }
  | Msg.task t => rest { m with selectedTask := t }
  | Msg.CommentsResponse Comments =>
    rest { m with comments := Comments, commentsLoaded := true }
  | Msg.error e => ({ m with err := some e }, [Cmd.Quit])
  | Msg.KeyMsg k =>
    if k.str = "q" ∨ k.str = "esc" then ({ m with state := viewState.listView }, [])
    else rest m
  | _ => rest m

/-- Go `postCommentCmd` as a builder: it returns a closure, never nil (the empty text is
tested inside the closure, when the command runs). -/
def postCommentCmd (apiToken taskID commentText : String) : Option Cmd :=
  some (Cmd.postCommentCmd apiToken taskID commentText)

/-- Go `updateTaskCmd` as a builder: it returns a closure, never nil (the empty payload
is tested inside the closure, when the command runs). -/
def updateTaskCmd (apiToken taskID description status : String) : Option Cmd :=
  some (Cmd.updateTaskCmd apiToken taskID description status)

/-- The `case "w"` of `updateEditTask`, after `m.state = listView`: the slice
`updateCmds`. Each builder result is appended when it is not nil. -/
def writeCmds (E : Env) (m : model E) : List Cmd :=
  let commentCmd := postCommentCmd m.apiToken m.selectedTask.ID (E.textinput_Value m.commentBox)
  let updateCmds : List Cmd := batch [commentCmd]
  let descChanged : Bool := E.textarea_Value m.descriptionBox ≠ m.selectedTask.Content
  let statusChanged : Bool := m.selectedStatus ≠ m.selectedTask.Status.Status
  if descChanged ∨ statusChanged then
    let newDesc := if descChanged then E.textarea_Value m.descriptionBox else ""
    let newStatus := if statusChanged then m.selectedStatus else ""
    updateCmds ++ batch [updateTaskCmd m.apiToken m.selectedTask.ID newDesc newStatus]
  else updateCmds

/-- The tail of `updateEditTask`: the message goes to the command line in command mode,
to the focused buffer in insert mode, nowhere in normal mode. -/
def editForward (E : Env) (msg : Msg) (m : model E) : model E × List Cmd :=
  if m.commandMode then
    ({ m with commandInput := (E.textinput_Update msg m.commandInput).1 },
      batch [libCmd (E.textinput_Update msg m.commandInput).2])
  else if m.insertMode then
    if E.textarea_Focused m.descriptionBox then
      ({ m with descriptionBox := (E.textarea_Update msg m.descriptionBox).1 },
        batch [libCmd (E.textarea_Update msg m.descriptionBox).2])
    else
      ({ m with commentBox := (E.textinput_Update msg m.commentBox).1 },
        batch [libCmd (E.textinput_Update msg m.commentBox).2])
  else (m, batch [none])

/-- Go `updateEditTask`. -/
def updateEditTask (E : Env) (msg : Msg) (m : model E) : model E × List Cmd :=
  match msg with
  | Msg.KeyMsg k =>
    if m.commandMode then
      if k.keyType = KeyType.KeyEnter then
        let command := E.textinput_Value m.commandInput
        let m := { m with commandInput := E.textinput_Reset m.commandInput, commandMode := false }
        if command = "w" then
          ({ m with state := viewState.listView },
            writeCmds E { m with state := viewState.listView })
        else if command = "q!" then ({ m with state := viewState.listView }, [])
        else if command = "q" then ({ m with quitting := true }, [Cmd.Quit])
        else editForward E msg m
      else if k.keyType = KeyType.KeyEsc then
        editForward E msg
          { m with commandMode := false, commandInput := E.textinput_Reset m.commandInput }
      else editForward E msg m
    else if m.insertMode then
      if k.keyType = KeyType.KeyEsc then
        editForward E msg
          { m with
            insertMode := false
            descriptionBox := E.textarea_Blur m.descriptionBox
            commentBox := E.textinput_Blur m.commentBox }
      else if k.keyType = KeyType.KeyTab then
        if E.textarea_Focused m.descriptionBox then
          editForward E msg
            { m with
              descriptionBox := E.textarea_Blur m.descriptionBox
              commentBox := (E.textinput_Focus m.commentBox).1 }
        else
          editForward E msg
            { m with
              descriptionBox := (E.textarea_Focus m.descriptionBox).1
              commentBox := E.textinput_Blur m.commentBox }
      else editForward E msg m
    else if k.str = ":" then
      ({ m with commandMode := true, commandInput := (E.textinput_Focus m.commandInput).1 }, [])
    else if k.str = "i" then
      editForward E msg
        { m with insertMode := true, descriptionBox := (E.textarea_Focus m.descriptionBox).1 }
    else if k.str = "a" then
      editForward E msg
        { m with insertMode := true, commentBox := (E.textinput_Focus m.commentBox).1 }
    else if k.str = "s" then
      ({ m with
          state := viewState.statusUpdateView
          statusList := E.list_SetShowHelp false
            (E.list_SetTitle ("Select new status for: " ++ m.selectedTask.Name)
              (E.list_New [] Delegate.statusDelegate 0 0)) },
        [Cmd.fetchStatusesCmd m.apiToken m.selectedTask.Space.ID])
    else if k.str = "q" then ({ m with state := viewState.listView }, [])
    else editForward E msg m
  | _ => editForward E msg m

/-- Go `updateDeleteConfirmation`. -/
def updateDeleteConfirmation (E : Env) (msg : Msg) (m : model E) : model E × List Cmd :=
  match msg with
  | Msg.KeyMsg k =>
    if k.str = "y" ∨ k.str = "Y" then
      ({ m with state := viewState.taskDeletedView, progress := E.progress_New },
        batch [some (Cmd.deleteTaskCmd m.apiToken m.selectedTask.ID), some Cmd.tickNow])
    else if k.str = "n" ∨ k.str = "N" ∨ k.str = "esc" then
      ({ m with state := viewState.listView }, [])
    else (m, [])
  | _ => (m, [])

/-- Go `updateTaskDeleted`. -/
def updateTaskDeleted (E : Env) (msg : Msg) (m : model E) : model E × List Cmd :=
  match msg with
  | Msg.string s =>
    if s = "delete_success" then (m, [Cmd.tickNow]) else (m, [])
  | Msg.tickMsg =>
    if E.progress_Percent m.progress = 1 then
      ({ m with state := viewState.listView, loading := true },
        [Cmd.fetchTasksCmd m.apiToken m.teamID m.spaceID])
    else
      ({ m with progress := (E.progress_IncrPercent (1 / 4) m.progress).1 },
        batch [libCmd (E.progress_IncrPercent (1 / 4) m.progress).2, some Cmd.tickAfter])
  | Msg.progressFrameMsg _ =>
    ({ m with progress := (E.progress_Update msg m.progress).1 },
      batch [libCmd (E.progress_Update msg m.progress).2])
  | _ => (m, [])

/-- The second `switch` of `model.Update`: the handler of the current screen. -/
def dispatch (E : Env) (m : model E) (msg : Msg) : Option (model E × List Cmd) :=
  match m.state with
  | viewState.formView => updateForm E msg m
  | viewState.spaceSelectionView => some (updateSpaceSelection E msg m)
  | viewState.listSelectionView => some (updateListSelection E msg m)
  | viewState.createTaskTitleView => some (updateCreateTaskTitle E msg m)
  | viewState.createTaskDescView => some (updateCreateTaskDesc E msg m)
  | viewState.createTaskStatusView => some (updateCreateTaskStatus E msg m)
  | viewState.createTaskAssigneeView => updateCreateTaskAssignee E msg m
  | viewState.createTaskPriorityView => some (updateCreateTaskPriority E msg m)
  | viewState.taskCreatedView => some (updateTaskCreated E msg m)
  | viewState.listView => some (updateList E msg m)
  | viewState.statusUpdateView => some (updateStatusUpdate E msg m)
  | viewState.taskDetailView => some (updateTaskDetail E msg m)
  | viewState.editTaskView => some (updateEditTask E msg m)
  | viewState.deleteConfirmationView => some (updateDeleteConfirmation E msg m)
  | viewState.taskDeletedView => some (updateTaskDeleted E msg m)

/-- Go `model.Update`: a resize is recorded, Ctrl-C quits, then the screen handler. -/
def Update (E : Env) (m : model E) (msg : Msg) : Option (model E × List Cmd) :=
  match msg with
  | Msg.WindowSizeMsg Width Height => dispatch E { m with width := Width, height := Height } msg
  | Msg.KeyMsg k =>
    if k.keyType = KeyType.KeyCtrlC then some ({ m with quitting := true }, [Cmd.Quit])
    else dispatch E m msg
  | _ => dispatch E m msg

/-- What `model.View` shows: a fixed text, the saving indicator of the task list, or
the widgets of a screen (their rendering belongs to the libraries). -/
inductive Rendered where
  | text (s : String)
  | saving
  | screen (s : viewState)
deriving DecidableEq

/-- Go `model.View`. -/
def View (E : Env) (m : model E) : Rendered :=
  match m.err with
  | some e => Rendered.text ("\nAn error occurred: " ++ e ++ "\n\nPress any key to quit.")
  | none =>
    if m.quitting then Rendered.text "Quitting...\n"
    else
      match m.state with
      | viewState.listView =>
        if m.loading then Rendered.saving else Rendered.screen viewState.listView
      | s => Rendered.screen s

/-- Whether the handler of a screen has a `case error:` (it sets `m.err` and returns
`tea.Quit`): `updateSpaceSelection`, `updateListSelection`, `updateList`,
`updateStatusUpdate` and `updateTaskDetail` have one, the other ten handlers do not. -/
def handlesError : viewState → Bool
  | viewState.spaceSelectionView => true
  | viewState.listSelectionView => true
  | viewState.listView => true
  | viewState.statusUpdateView => true
  | viewState.taskDetailView => true
  | _ => false

/-! ## Runs -/

/-- The event loop on a list of messages: each goes through `Update`; the commands of
all steps are collected in order.  A panic ends the run. -/
def run (E : Env) : model E → List Msg → Option (model E × List Cmd)
  | m, [] => some (m, [])
  | m, msg :: msgs =>
    match Update E m msg with
    | none => none
    | some r =>
      match run E r.1 msgs with
      | none => none
      | some r2 => some (r2.1, r.2 ++ r2.2)

/-- The submit condition of `updateForm`: `s == "enter" && m.focusIndex == len(m.inputs)-1`,
enter while the last field has the focus. -/
def isSubmit (E : Env) (m : model E) (k : Key) : Bool :=
  decide (k.str = "enter" ∧ m.focusIndex = (m.inputs.length : Int) - 1)

/-- No key of the sequence is a submit in the session it is delivered to. -/
def noSubmit (E : Env) : model E → List Key → Bool
  | _, [] => true
  | m, k :: ks =>
    !isSubmit E m k &&
      (match Update E m (Msg.KeyMsg k) with
        | none => true
        | some r => noSubmit E r.1 ks)

/-- Go `postCommentCmd`, the body of the POST request it sends: none for the empty text
(`if commentText == "" { return nil }`, before any request is made), else the text
spliced into the JSON template by `fmt.Sprintf`. -/
def postCommentSent (commentText : String) : Option String :=
  if commentText = "" then none
  else some ("\x7b\"comment_text\": \"" ++ commentText ++ "\"\x7d")

/-! ## A concrete environment

`bubbles` is one inhabitant of `Env`: small widget states with the behaviour the
program relies on (a text field holds a value and a focus flag and appends typed runes
when focused; a list holds items and a cursor; a progress bar holds a percentage clamped
to `[0, 1]`).  It is used to evaluate the program on concrete inputs. -/

/-- State of a text field (`textinput.Model`, `textarea.Model`). -/
structure TextField where
  value : String
  focus : Bool
  placeholder : String
  promptText : String
  charLimit : Int
  promptStyle : Style
  cursorStyle : Style
deriving DecidableEq

/-- A new text field: empty, not focused, prompt `> `, no limit. -/
def TextField.new : TextField :=
  { value := "", focus := false, placeholder := "", promptText := "> ", charLimit := 0,
    promptStyle := Style.noStyle, cursorStyle := Style.noStyle }

/-- A focused text field takes typed runes at the end of its value, up to its limit;
anything else leaves it as it is. -/
def TextField.update (msg : Msg) (t : TextField) : TextField × Option LibCmd :=
  match msg with
  | Msg.KeyMsg k =>
    if t.focus ∧ k.keyType = KeyType.KeyRunes then
      if t.charLimit > 0 ∧ ((t.value ++ k.str).length : Int) > t.charLimit then (t, none)
      else ({ t with value := t.value ++ k.str }, none)
    else (t, none)
  | _ => (t, none)

/-- State of a list widget. -/
structure ListState where
  items : List Item
  cursor : Nat
  filtering : Bool
  title : String
  width : Int
  height : Int
  delegate : Delegate
  showHelp : Bool
  showStatusBar : Bool
  filteringEnabled : Bool
  helpKeys : List (String × String)
deriving DecidableEq

/-- The list made by `list.New`. -/
def ListState.new (items : List Item) (d : Delegate) (w h : Int) : ListState :=
  { items := items, cursor := 0, filtering := false, title := "List", width := w,
    height := h, delegate := d, showHelp := true, showStatusBar := true,
    filteringEnabled := true, helpKeys := [] }

/-- The list widget on a message: `down`/`j` and `up`/`k` move the cursor, `q` and
`esc` return `tea.Quit`, `/` starts filtering; while filtering keys go to the filter. -/
def ListState.update (msg : Msg) (l : ListState) : ListState × Option LibCmd :=
  match msg with
  | Msg.KeyMsg k =>
    if l.filtering then
      if k.str = "esc" ∨ k.str = "enter" then ({ l with filtering := false }, none)
      else (l, none)
    else if k.str = "down" ∨ k.str = "j" then
      (if l.cursor + 1 < l.items.length then { l with cursor := l.cursor + 1 } else l, none)
    else if k.str = "up" ∨ k.str = "k" then ({ l with cursor := l.cursor - 1 }, none)
    else if k.str = "q" ∨ k.str = "esc" then (l, some LibCmd.quit)
    else if k.str = "/" ∧ l.filteringEnabled then ({ l with filtering := true }, none)
    else (l, none)
  | _ => (l, none)

/-- State of a viewport. -/
structure ViewportState where
  width : Int
  height : Int
  content : String
deriving DecidableEq

/-- The concrete environment. -/
def bubbles : Env :=
  { TextInput := TextField
    TextArea := TextField
    ListModel := ListState
    Viewport := ViewportState
    Progress := Rat
    Spinner := Nat
    textinput_zero := { TextField.new with promptText := "" }
    textinput_New := TextField.new
    textinput_SetPlaceholder := fun s t => { t with placeholder := s }
    textinput_SetPrompt := fun s t => { t with promptText := s }
    textinput_SetCharLimit := fun n t => { t with charLimit := n }
    textinput_SetPromptStyle := fun st t => { t with promptStyle := st }
    textinput_SetCursorStyle := fun st t => { t with cursorStyle := st }
    textinput_Focus := fun t => ({ t with focus := true }, some (LibCmd.internal 0))
    textinput_Blur := fun t => { t with focus := false }
    textinput_Value := fun t => t.value
    textinput_Reset := fun t => { t with value := "" }
    textinput_Update := TextField.update
    textarea_zero := { TextField.new with promptText := "" }
    textarea_New := TextField.new
    textarea_SetPlaceholder := fun s t => { t with placeholder := s }
    textarea_Focus := fun t => ({ t with focus := true }, some (LibCmd.internal 0))
    textarea_Blur := fun t => { t with focus := false }
    textarea_Focused := fun t => t.focus
    textarea_Value := fun t => t.value
    textarea_SetValue := fun s t => { t with value := s }
    textarea_Update := TextField.update
    list_zero := ListState.new [] Delegate.default 0 0
    list_New := ListState.new
    list_SetTitle := fun s l => { l with title := s }
    list_SetSize := fun w h l => { l with width := w, height := h }
    list_SetItems := fun xs l => ({ l with items := xs }, none)
    list_SetDelegate := fun d l => { l with delegate := d }
    list_SetShowHelp := fun b l => { l with showHelp := b }
    list_SetShowStatusBar := fun b l => { l with showStatusBar := b }
    list_SetFilteringEnabled := fun b l => { l with filteringEnabled := b }
    list_SetAdditionalShortHelpKeys := fun ks l => { l with helpKeys := ks }
    list_SelectedItem := fun l => l.items.get? l.cursor
    list_Filtering := fun l => l.filtering
    list_Update := ListState.update
    viewport_zero := { width := 0, height := 0, content := "" }
    viewport_New := fun w h => { width := w, height := h, content := "" }
    viewport_SetWidth := fun w v => { v with width := w }
    viewport_SetHeight := fun h v => { v with height := h }
    viewport_SetContent := fun s v => { v with content := s }
    viewport_Update := fun _ v => (v, none)
    progress_zero := 0
    progress_New := 0
    progress_Percent := fun p => p
    progress_IncrPercent := fun v p => (max 0 (min 1 (p + v)), some (LibCmd.internal 1))
    progress_Update := fun _ p => (p, none)
    spinner_zero := 0
    spinner_Tick := fun _ => LibCmd.internal 2
    spinner_Update := fun _ n => (n + 1, some (LibCmd.internal 2))
    appStyle_GetFrameSize := (4, 2)
    titleStyle_Render := fun s => s
    formatDate := fun s => s
    mapRange := fun s => s.sort (fun a b => a ≤ b) }

/-- The credential form as `newModel` builds it when no credentials are stored. -/
def formStart : model bubbles :=
  newModel bubbles "" "" false

/-- The credential form with both fields filled and the focus on the last field. -/
def formFilled (token team : String) : model bubbles :=
  { formStart with
    focusIndex := 1
    inputs := [ { TextField.new with value := token }, { TextField.new with value := team, focus := true } ] }

/-- A task as the remote service returns it. -/
def sampleTask : Task :=
  { ID := "t1", Name := "Fix bug", Content := "old text", Status := ⟨"open"⟩,
    Space := ⟨"s1"⟩, List := ⟨"Backlog", "l1"⟩, Folder := ⟨"Core"⟩ }

/-- The session after the space picker of a stored-credentials start. -/
def started (creatingTask : Bool) : model bubbles :=
  { newModel bubbles "tok" "team" creatingTask with spaceID := "s1" }

/-- The editor on `sampleTask` in command mode with `command` typed on the command line,
`description` in the description buffer, `status` staged and `comment` in the comment
buffer. -/
def editing (command description status comment : String) : model bubbles :=
  { started false with
    state := viewState.editTaskView
    commandMode := true
    selectedTask := sampleTask
    selectedStatus := status
    descriptionBox := { TextField.new with value := description }
    commentBox := { TextField.new with value := comment, placeholder := "New comment..." }
    commandInput :=
      { TextField.new with
        value := command
        promptText := ":"
        charLimit := 5
        focus := true } }

/-- The wizard at the priority step with the cursor on entry `cursor` of `priorities`. -/
def atPriority (cursor : Nat) : model bubbles :=
  { started true with
    state := viewState.createTaskPriorityView
    listID := "l1"
    newTaskTitle := "Fix bug"
    newTaskDesc := "details"
    newTaskStatus := "open"
    newTaskAssignees := [7]
    priorityList := { ListState.new priorities Delegate.priorityDelegate 76 22 with
                      title := "Select Priority", cursor := cursor } }

/-- The wizard at the assignee step: two members listed, the cursor on the first,
`selected` chosen so far. -/
def atAssignee (selected : Finset Int) : model bubbles :=
  { started true with
    state := viewState.createTaskAssigneeView
    listID := "l1"
    selectedAssignees := some selected
    assigneeList :=
      { ListState.new [Item.member ⟨7, "ann", "ann@x.io"⟩, Item.member ⟨9, "bob", "bob@x.io"⟩]
          (Delegate.assigneeDelegate (some selected)) 76 22 with
        title := "Select Assignees (space to select, enter to confirm)" } }

/-- The list picker of the wizard, nothing received yet. -/
def atListSelection : model bubbles :=
  { started true with
    state := viewState.listSelectionView
    folderlessList := { ListState.new [] Delegate.default 0 0 with title := "Select a List in Eng" } }

/-- The enter key. -/
def enterKey : Key := { keyType := KeyType.KeyEnter, str := "enter" }

/-- The space bar. -/
def spaceKey : Key := { keyType := KeyType.KeyRunes, str := " " }

/-! ## Definitions for the list merge, the remote results and the editor modes -/

/-- The entries a folders result contributes, in the words of the specification: for
every folder `f` and every list `l` nested in it, an entry with the id of `l` and the
display name `f.name + " / " + l.name`. -/
def qualifiedLists (F : List Folder) : List Item :=
  (F.map fun f => f.Lists.map fun l =>
    Item.listInfo { ID := l.ID, Name := f.Name ++ " / " ++ l.Name }).flatten

/-- What the HTTP exchange of a command came to: a transport error (`client.Do`
returned `err`) or a response with its status code and body. -/
inductive HttpOutcome where
  | failed (err : String)
  | response (StatusCode : Int) (body : String)
deriving DecidableEq

/-- Go `deleteTaskCmd`, the message the closure returns: the transport error, or
`delete task failed: <body>` for any status other than 204 (`http.StatusNoContent`), or
the sentinel `delete_success`. -/
def deleteTaskResult : HttpOutcome → Msg
  | HttpOutcome.failed err => Msg.error err
  | HttpOutcome.response StatusCode body =>
    if StatusCode ≠ 204 then Msg.error ("delete task failed: " ++ body)
    else Msg.string "delete_success"

/-- Whether a command was built by `createTaskCmd`. -/
def Cmd.isCreateTask : Cmd → Bool
  | Cmd.createTaskCmd _ _ _ _ _ _ _ => true
  | _ => false

/-- A key that types text: `tea.KeyRunes` with the given runes. -/
def runeKey (s : String) : Key := { keyType := KeyType.KeyRunes, str := s }

/-- The space picker of a browsing session with two spaces listed, the cursor on the
first. -/
def atSpaceSelection : model bubbles :=
  { newModel bubbles "tok" "team" false with
    spaceList :=
      { ListState.new [Item.space ⟨"s1", "Eng"⟩, Item.space ⟨"s2", "Design"⟩]
          Delegate.default 0 0 with
        title := "Select a Space" } }

/-- The task list of space `s1` holding `sampleTask`, with the given `loading` flag. -/
def atTaskList (loading : Bool) : model bubbles :=
  { started false with
    state := viewState.listView
    loading := loading
    list :=
      { ListState.new [Item.task sampleTask] Delegate.default 76 22 with
        title := "Tasks in Eng" } }

/-- The delete prompt for `sampleTask`, reached from the task list with `d`. -/
def atDeleteConfirmation : model bubbles :=
  { atTaskList false with
    state := viewState.deleteConfirmationView
    selectedTask := sampleTask }

/-- Go `listCmd.Run`, the model it hands to `tea.NewProgram`: `newModel` with the
picked task copied in, then the screen the typed action asks for.  The program exits
before that when a credential is missing or the action is neither `view` nor `edit`
(`none`). -/
def listInitialModel (E : Env) (apiToken teamID : String) (selectedTask : Task)
    (action : String) : Option (model E) :=
  if apiToken = "" ∨ teamID = "" then none
  else
    let initialModel : model E :=
      { newModel E apiToken teamID false with
        selectedTask := selectedTask
        selectedStatus := selectedTask.Status.Status
        spaceID := selectedTask.Space.ID
        list := E.list_New [] Delegate.default 1 1 }
    if action = "view" then
      some { initialModel with
        state := viewState.taskDetailView
        viewport := E.viewport_New 100 40 }
    else if action = "edit" then
      some { initialModel with
        state := viewState.editTaskView
        insertMode := false
        descriptionBox := E.textarea_SetValue selectedTask.Content E.textarea_New
        commentBox := E.textinput_SetPlaceholder "New comment..." E.textinput_New
        commandInput := E.textinput_SetCharLimit 5 (E.textinput_SetPrompt ":" E.textinput_New) }
    else none

/-- The editor modes exclude each other: `insertMode` and `commandMode` are not both
set, and when either is set the screen is the editor. -/
def modesExclusive (E : Env) (m : model E) : Prop :=
  ¬ (m.insertMode = true ∧ m.commandMode = true) ∧
    ((m.insertMode = true ∨ m.commandMode = true) → m.state = viewState.editTaskView)

/-- A browsing session from the start to the command line of the editor: the spaces arrive,
enter on the first space, the tasks arrive, `e` on the first task, `:`. -/
def toCommandLine : List Msg :=
  [Msg.SpacesResponse [⟨"s1", "Eng"⟩], Msg.KeyMsg enterKey, Msg.items [Item.task sampleTask],
    Msg.KeyMsg (runeKey "e"), Msg.KeyMsg (runeKey ":")]

/-- The session `toCommandLine` ends in. -/
def editorReached : model bubbles :=
  match run bubbles (newModel bubbles "tok" "team" false) toCommandLine with
  | some r => r.1
  | none => newModel bubbles "tok" "team" false

/-- The editor on `sampleTask` in normal mode, with `description` in the description
buffer and `comment` in the comment buffer, neither focused. -/
def editingNormal (description comment : String) : model bubbles :=
  { editing "" description "open" comment with
    commandMode := false
    commandInput := { TextField.new with promptText := ":", charLimit := 5 } }

/-- The success results that carry data: spaces, folder-less lists, folders, statuses,
members, comments, the task collection, a single task. -/
def isDataResult : Msg → Bool
  | Msg.SpacesResponse _ => true
  | Msg.ListsResponse _ => true
  | Msg.FoldersResponse _ => true
  | Msg.StatusesResponse _ => true
  | Msg.MembersResponse _ => true
  | Msg.CommentsResponse _ => true
  | Msg.items _ => true
  | Msg.task _ => true
  | _ => false

/-- Whether the handler of a screen has a case for a data result (the `case` lines of
the type switches in the source). -/
def recognises : viewState → Msg → Bool
  | viewState.spaceSelectionView, Msg.SpacesResponse _ => true
  | viewState.listSelectionView, Msg.ListsResponse _ => true
  | viewState.listSelectionView, Msg.FoldersResponse _ => true
  | viewState.createTaskStatusView, Msg.StatusesResponse _ => true
  | viewState.statusUpdateView, Msg.StatusesResponse _ => true
  | viewState.createTaskAssigneeView, Msg.MembersResponse _ => true
  | viewState.listView, Msg.items _ => true
  | viewState.taskDetailView, Msg.task _ => true
  | viewState.taskDetailView, Msg.CommentsResponse _ => true
  | _, _ => false

/-- The fields of `model` that are not widgets. -/
structure SessionData where
  state : viewState
  err : Option String
  quitting : Bool
  width : Int
  height : Int
  loading : Bool
  insertMode : Bool
  commandMode : Bool
  isCreatingTask : Bool
  focusIndex : Int
  createFocusIndex : Int
  statusMessage : String
  apiToken : String
  teamID : String
  spaceID : String
  listID : String
  newTaskTitle : String
  newTaskDesc : String
  newTaskStatus : String
  newTaskAssignees : List Int
  newTaskPriority : Int
  selectedTask : Task
  selectedStatus : String
  selectedAssignees : Option (Finset Int)
  comments : List Comment
  commentsLoaded : Bool
  allLists : List Item
deriving DecidableEq

/-- The non-widget fields of a session. -/
def model.data {E : Env} (m : model E) : SessionData :=
  { state := m.state, err := m.err, quitting := m.quitting, width := m.width,
    height := m.height, loading := m.loading, insertMode := m.insertMode,
    commandMode := m.commandMode, isCreatingTask := m.isCreatingTask,
    focusIndex := m.focusIndex, createFocusIndex := m.createFocusIndex,
    statusMessage := m.statusMessage, apiToken := m.apiToken, teamID := m.teamID,
    spaceID := m.spaceID, listID := m.listID, newTaskTitle := m.newTaskTitle,
    newTaskDesc := m.newTaskDesc, newTaskStatus := m.newTaskStatus,
    newTaskAssignees := m.newTaskAssignees, newTaskPriority := m.newTaskPriority,
    selectedTask := m.selectedTask, selectedStatus := m.selectedStatus,
    selectedAssignees := m.selectedAssignees, comments := m.comments,
    commentsLoaded := m.commentsLoaded, allLists := m.allLists }

/-- The widgets do not answer `msg` with `tea.Quit`.  (In the library only key
messages make the list widget return it.) -/
def quietOn (E : Env) (msg : Msg) : Prop :=
  (∀ t, (E.textinput_Update msg t).2 ≠ some LibCmd.quit) ∧
  (∀ t, (E.textarea_Update msg t).2 ≠ some LibCmd.quit) ∧
  (∀ l, (E.list_Update msg l).2 ≠ some LibCmd.quit) ∧
  (∀ v, (E.viewport_Update msg v).2 ≠ some LibCmd.quit)

/-- The commands `cs` returned for `msg` are local: none is remote or persistent, and
none is `tea.Quit` when the widgets do not answer `msg` with it. -/
def localCmds (E : Env) (msg : Msg) (cs : List Cmd) : Prop :=
  (∀ c ∈ cs, c.isRemoteOrPersist = false) ∧ (quietOn E msg → Cmd.Quit ∉ cs)

/-- The two facts about the progress bar the deletion animation relies on: a new bar
stands at 0, and `IncrPercent(v)` moves it to the sum clamped to `[0, 1]`. -/
def progressLaws (E : Env) : Prop :=
  E.progress_Percent E.progress_New = 0 ∧
  ∀ (v : Rat) (p : E.Progress),
    E.progress_Percent (E.progress_IncrPercent v p).1 = max 0 (min 1 (E.progress_Percent p + v))

/-- The two facts about the list widget the pickers and the task list rely on, with
`items` standing for `list.Model.Items()`: after `SetItems(xs)` the items are `xs`, and
`Update` with a data result (no key, no message of the widget itself) leaves the items as
they are. -/
def listLaws (E : Env) (items : E.ListModel → List Item) : Prop :=
  (∀ (xs : List Item) (l : E.ListModel), items (E.list_SetItems xs l).1 = xs) ∧
  ∀ (msg : Msg) (l : E.ListModel), isDataResult msg = true →
    items (E.list_Update msg l).1 = items l

/-- The task list of space `s1` as enter on the space picker opens it, no task received
yet. -/
def taskListOpened : model bubbles :=
  { atSpaceSelection with
    spaceID := "s1"
    state := viewState.listView
    list := newTaskList bubbles atSpaceSelection ⟨"s1", "Eng"⟩ }

/-- The sequence of `n` tick events. -/
def ticks (n : Nat) : List Msg := List.replicate n Msg.tickMsg

/-! ## Definitions for the start of a session and the comment body -/

/-- The screens of the task creation wizard, from the list picker to task created. -/
def inWizard : viewState → Bool
  | viewState.listSelectionView => true
  | viewState.createTaskTitleView => true
  | viewState.createTaskDescView => true
  | viewState.createTaskStatusView => true
  | viewState.createTaskAssigneeView => true
  | viewState.createTaskPriorityView => true
  | viewState.taskCreatedView => true
  | _ => false

/-- A session that is not creating a task and is on none of the wizard screens. -/
def browsingOnly (E : Env) (m : model E) : Prop :=
  m.isCreatingTask = false ∧ inWizard m.state = false

/-- The task subcommand started without stored credentials: a token and a team id are
typed into the form and submitted, the spaces arrive, enter on the first space. -/
def taskStartKeys : List Msg :=
  [Msg.KeyMsg (runeKey "k"), Msg.KeyMsg ⟨KeyType.KeyTab, "tab"⟩, Msg.KeyMsg (runeKey "9"),
    Msg.KeyMsg enterKey, Msg.SpacesResponse [⟨"s1", "Eng"⟩], Msg.KeyMsg enterKey]

/-- The session `taskStartKeys` ends in. -/
def reachedFromForm : model bubbles :=
  match run bubbles (newModel bubbles "" "" true) taskStartKeys with
  | some r => r.1
  | none => newModel bubbles "" "" true

/-- The tab key. -/
def tabKey : Key := { keyType := KeyType.KeyTab, str := "tab" }

/-! ### Reading a request body as JSON

The claim about the comment body speaks of a well-formed JSON object with the single key
`comment_text` and of the decoded value of its string.  `decodeCommentBody` is that
reading, after RFC 8259: optional whitespace, an opening brace, the key as a JSON
string, a colon, the value as a JSON string, a closing brace; inside a string a quote
ends it, a backslash starts an escape (the eight short escapes and `\uXXXX`), and a
control character is not allowed.  Surrogate escapes are rejected. -/

/-- The double quote. -/
def quoteChar : Char := Char.ofNat 34

/-- The backslash. -/
def backslashChar : Char := Char.ofNat 92

/-- JSON whitespace. -/
def isJsonSpace (c : Char) : Bool :=
  decide (c = ' ' ∨ c = '\t' ∨ c = '\n' ∨ c = '\r')

/-- The value of a hexadecimal digit. -/
def hexDigit (c : Char) : Option Nat :=
  if 48 ≤ c.toNat ∧ c.toNat ≤ 57 then some (c.toNat - 48)
  else if 97 ≤ c.toNat ∧ c.toNat ≤ 102 then some (c.toNat - 87)
  else if 65 ≤ c.toNat ∧ c.toNat ≤ 70 then some (c.toNat - 55)
  else none

/-- The character a short escape `\e` stands for. -/
def simpleEscape (e : Char) : Option Char :=
  if e = quoteChar then some quoteChar
  else if e = backslashChar then some backslashChar
  else if e = '/' then some '/'
  else if e = 'b' then some (Char.ofNat 8)
  else if e = 'f' then some (Char.ofNat 12)
  else if e = 'n' then some '\n'
  else if e = 'r' then some '\r'
  else if e = 't' then some '\t'
  else none

/-- The character a four-digit hexadecimal escape stands for; none for a surrogate. -/
def unicodeEscape (a b c d : Char) : Option Char :=
  match hexDigit a, hexDigit b, hexDigit c, hexDigit d with
  | some x, some y, some z, some w =>
    if 55296 ≤ ((x * 16 + y) * 16 + z) * 16 + w ∧ ((x * 16 + y) * 16 + z) * 16 + w ≤ 57343
    then none
    else some (Char.ofNat (((x * 16 + y) * 16 + z) * 16 + w))
  | _, _, _, _ => none

/-- A JSON string after its opening quote: the decoded characters and what follows
the closing quote. -/
def jsonStringTail : List Char → Option (List Char × List Char)
  | [] => none
  | c :: rest =>
    if c = quoteChar then some ([], rest)
    else if c = backslashChar then
      match rest with
      | [] => none
      | e :: rest2 =>
        if e = 'u' then
          match rest2 with
          | a :: b :: c3 :: d :: rest3 =>
            match unicodeEscape a b c3 d, jsonStringTail rest3 with
            | some ch, some r => some (ch :: r.1, r.2)
            | _, _ => none
          | _ => none
        else
          match simpleEscape e, jsonStringTail rest2 with
          | some ch, some r => some (ch :: r.1, r.2)
          | _, _ => none
    else if c.toNat < 32 then none
    else
      match jsonStringTail rest with
      | some r => some (c :: r.1, r.2)
      | none => none

/-- Drop leading JSON whitespace. -/
def skipSpace : List Char → List Char
  | [] => []
  | c :: rest => if isJsonSpace c then skipSpace rest else c :: rest

/-- Read one given character. -/
def dropChar (ch : Char) : List Char → Option (List Char)
  | [] => none
  | c :: rest => if c = ch then some rest else none

/-- Read an object with the single key `comment_text` and a string value; the result is
the decoded value. -/
def decodeCommentChars (l : List Char) : Option (List Char) :=
  match dropChar (Char.ofNat 123) (skipSpace l) with
  | none => none
  | some l1 =>
    match dropChar quoteChar (skipSpace l1) with
    | none => none
    | some l2 =>
      match jsonStringTail l2 with
      | none => none
      | some key =>
        if key.1 ≠ "comment_text".data then none
        else
          match dropChar ':' (skipSpace key.2) with
          | none => none
          | some l4 =>
            match dropChar quoteChar (skipSpace l4) with
            | none => none
            | some l5 =>
              match jsonStringTail l5 with
              | none => none
              | some value =>
                match dropChar (Char.ofNat 125) (skipSpace value.2) with
                | none => none
                | some l7 => if skipSpace l7 = [] then some value.1 else none

/-- The decoded `comment_text` of a request body, when the body is such an object. -/
def decodeCommentBody (body : String) : Option String :=
  (decodeCommentChars body.data).map String.mk

/-- A character that stands for itself inside a JSON string: not a quote, not a
backslash, not a control character. -/
def safeChar (c : Char) : Bool :=
  decide (c ≠ quoteChar ∧ c ≠ backslashChar ∧ 32 ≤ c.toNat)


/-- The opening of the body `postCommentCmd` builds, up to the quote that opens the
value. -/
def commentBodyOpening : List Char := "\x7b\"comment_text\": \"".data

/-- What is left to decode once the opening of the body has been read. -/
def decodeCommentValue (l : List Char) : Option (List Char) :=
  match jsonStringTail l with
  | none => none
  | some value =>
    match dropChar (Char.ofNat 125) (skipSpace value.2) with
    | none => none
    | some l7 => if skipSpace l7 = [] then some value.1 else none

/-! # Theorems -/

/-! ## Shared lemmas -/

/-- A command that came from a widget is neither remote nor persistent. -/
theorem LibCmd.toCmd_local (c : LibCmd) : c.toCmd.isRemoteOrPersist = false := by
  cases c <;> rfl

/-- A batch made only of widget results holds no remote or persistence command. -/
theorem batch_libCmd_local {α : Type} (l : List α) (f : α → Option LibCmd) :
    ∀ c ∈ batch (l.map fun t => libCmd (f t)), c.isRemoteOrPersist = false := by
  intro c hc
  simp only [batch, List.mem_filterMap, List.mem_map] at hc
  obtain ⟨o, ⟨a, _, rfl⟩, ho⟩ := hc
  cases hfa : f a with
  | none => simp [libCmd, hfa] at ho
  | some lc =>
    simp [libCmd, hfa] at ho
    subst ho
    exact LibCmd.toCmd_local lc

/-- The tail of `updateEditTask` touches a widget only. -/
theorem editForward_frame (E : Env) (msg : Msg) (m : model E) :
    (editForward E msg m).1.err = m.err ∧ (editForward E msg m).1.state = m.state ∧
    (editForward E msg m).1.quitting = m.quitting ∧
    (editForward E msg m).1.loading = m.loading := by
  unfold editForward
  split_ifs <;> simp

/-- `View` reads `err`, `quitting`, `state` and `loading` only. -/
theorem View_congr (E : Env) (a b : model E) (herr : a.err = b.err)
    (hstate : a.state = b.state) (hquit : a.quitting = b.quitting)
    (hload : a.loading = b.loading) : View E a = View E b := by
  simp [View, herr, hstate, hquit, hload]

/-- Committing `w` in the editor: the command line is reset, command mode is left, the
screen is the task list and the commands are `writeCmds`. -/
theorem editTask_write (E : Env) (m : model E) (k : Key)
    (hstate : m.state = viewState.editTaskView) (hmode : m.commandMode = true)
    (hkey : k.keyType = KeyType.KeyEnter)
    (hcmd : E.textinput_Value m.commandInput = "w") :
    Update E m (Msg.KeyMsg k) =
      some ({ m with
          commandInput := E.textinput_Reset m.commandInput
          commandMode := false
          state := viewState.listView },
        writeCmds E m) := by
  simp [Update, dispatch, updateEditTask, hstate, hmode, hkey, hcmd, writeCmds]

/-- Two messages in a row. -/
theorem run_two (E : Env) (m : model E) (a b : Msg) (r r2 : model E × List Cmd)
    (h1 : Update E m a = some r) (h2 : Update E r.1 b = some r2) :
    run E m [a, b] = some (r2.1, r.2 ++ (r2.2 ++ [])) := by
  simp [run, h1, h2]

/-! ## Errors (C1) -/

/-- On the five screens whose handler has a `case error:`, an error result sets `err`,
returns `tea.Quit`, and `View` shows the error text. -/
theorem error_shown_on_fetch_screens (E : Env) (m : model E) (e : String)
    (h : handlesError m.state = true) :
    Update E m (Msg.error e) = some ({ m with err := some e }, [Cmd.Quit]) ∧
    View E { m with err := some e }
      = Rendered.text ("\nAn error occurred: " ++ e ++ "\n\nPress any key to quit.") := by
  constructor
  · cases hs : m.state <;> simp [hs, handlesError] at h <;>
      simp [Update, dispatch, hs, updateSpaceSelection, updateListSelection, updateList,
        updateStatusUpdate, updateTaskDetail]
  · simp [View]

/-- Claim C1, what the code does where the claim fails.  On the ten screens whose handler
has no `case error:` (the credential form, the five wizard steps, task created, the
editor, delete confirmation, task deleted) an error result is not recorded: `Update`
returns a session with `err`, the screen and what `View` shows all unchanged. -/
theorem error_ignored_without_error_case (E : Env) (m : model E) (e : String)
    (h : handlesError m.state = false) :
    ∃ r, Update E m (Msg.error e) = some r ∧ r.1.err = m.err ∧ r.1.state = m.state ∧
      View E r.1 = View E m := by
  have key : ∃ r, Update E m (Msg.error e) = some r ∧ r.1.err = m.err ∧
      r.1.state = m.state ∧ r.1.quitting = m.quitting ∧ r.1.loading = m.loading := by
    cases hs : m.state <;> simp [hs, handlesError] at h
    case editTaskView =>
      refine ⟨editForward E (Msg.error e) m, ?_, ?_⟩
      · simp [Update, dispatch, hs, updateEditTask]
      · rw [← hs]
        exact editForward_frame E (Msg.error e) m
    all_goals
      simp [Update, dispatch, hs, updateForm, updateInputs, updateCreateTaskTitle,
        updateCreateTaskDesc, updateCreateTaskStatus, updateCreateTaskAssignee,
        updateCreateTaskPriority, updateTaskCreated,
        updateDeleteConfirmation, updateTaskDeleted]
  obtain ⟨r, hr, h1, h2, h3, h4⟩ := key
  exact ⟨r, hr, h1, h2, View_congr E r.1 m h1 h2 h3 h4⟩

/-- The failing input of C1: the wizard sits on the priority step (where the create
command was issued) with no error recorded; the error of a failed create arrives and the
session keeps `err` unset and the priority screen on display. -/
theorem error_ignored_without_error_case_witness :
    handlesError (atPriority 4).state = false ∧ (atPriority 4).err = none ∧
    ∃ r, Update bubbles (atPriority 4) (Msg.error "create task failed: denied") = some r ∧
      r.1.err = (atPriority 4).err ∧ r.1.state = (atPriority 4).state ∧
      View bubbles r.1 = View bubbles (atPriority 4) :=
  ⟨by decide, rfl,
    error_ignored_without_error_case bubbles (atPriority 4) "create task failed: denied"
      (by decide)⟩

/-! ## Ctrl-C (C2) -/

/-- Claim C2.  In every session, whatever the screen, the input mode or the filter
state, a key event of type Ctrl-C makes `Update` return the quit command and the same
session with `quitting` set: no other field changes, the screen handler is not run. -/
theorem ctrl_c_quits_from_every_session (E : Env) (m : model E) (s : String) :
    Update E m (Msg.KeyMsg { keyType := KeyType.KeyCtrlC, str := s })
      = some ({ m with quitting := true }, [Cmd.Quit]) := by
  simp [Update]

/-! ## The credential form (C3, C4) -/

/-- Claim C3.  On the credential form with two fields, enter while the last field has
the focus stores the two field values (whatever they are) as `apiToken` and `teamID`,
moves to the space picker and issues exactly two commands, save-credentials and
fetch-spaces, both with those two values. -/
theorem form_submit_saves_and_fetches (E : Env) (m : model E) (k : Key)
    (i0 i1 : E.TextInput)
    (hstate : m.state = viewState.formView) (hkey : k.keyType ≠ KeyType.KeyCtrlC)
    (henter : k.str = "enter") (hinputs : m.inputs = [i0, i1]) (hfocus : m.focusIndex = 1) :
    Update E m (Msg.KeyMsg k) =
      some ({ m with
          apiToken := E.textinput_Value i0
          teamID := E.textinput_Value i1
          state := viewState.spaceSelectionView
          spaceList := newSpaceList E },
        [Cmd.saveCredentialsCmd (E.textinput_Value i0) (E.textinput_Value i1),
          Cmd.fetchSpacesCmd (E.textinput_Value i0) (E.textinput_Value i1)]) := by
  simp [Update, dispatch, updateForm, hstate, hkey, henter, hinputs, hfocus, batch]

/-- C3 on the form with both fields empty. -/
theorem form_submit_saves_and_fetches_witness :
    (formFilled "" "").state = viewState.formView ∧ enterKey.keyType ≠ KeyType.KeyCtrlC ∧
    enterKey.str = "enter" ∧
    (formFilled "" "").inputs
      = [{ TextField.new with value := "" }, { TextField.new with value := "", focus := true }] ∧
    (formFilled "" "").focusIndex = 1 ∧
    Update bubbles (formFilled "" "") (Msg.KeyMsg enterKey) =
      some ({ formFilled "" "" with
          apiToken := ""
          teamID := ""
          state := viewState.spaceSelectionView
          spaceList := newSpaceList bubbles },
        [Cmd.saveCredentialsCmd "" "", Cmd.fetchSpacesCmd "" ""]) :=
  ⟨rfl, by decide, rfl, rfl, rfl,
    form_submit_saves_and_fetches bubbles (formFilled "" "") enterKey
      { TextField.new with value := "" } { TextField.new with value := "", focus := true }
      rfl (by decide) rfl rfl rfl⟩

/-- One key on the credential form that is not a submit: the screen stays and the
commands returned are widget commands or `tea.Quit`. -/
theorem updateForm_stays (E : Env) (m : model E) (k : Key)
    (hstate : m.state = viewState.formView) (hsub : isSubmit E m k = false) :
    ∃ r, Update E m (Msg.KeyMsg k) = some r ∧ r.1.state = viewState.formView ∧
      ∀ c ∈ r.2, c.isRemoteOrPersist = false := by
  by_cases hc : k.keyType = KeyType.KeyCtrlC
  · refine ⟨({ m with quitting := true }, [Cmd.Quit]), by simp [Update, hc], hstate, ?_⟩
    intro c hmem
    simp at hmem
    subst hmem
    rfl
  · have hsub2 : ¬ (k.str = "enter" ∧ m.focusIndex = (m.inputs.length : Int) - 1) := by
      simpa [isSubmit] using hsub
    simp only [Update, hc, if_false, dispatch, hstate, updateForm]
    by_cases hnav : k.str = "tab" ∨ k.str = "shift+tab" ∨ k.str = "enter" ∨ k.str = "up"
        ∨ k.str = "down"
    · rw [if_pos hnav, if_neg hsub2]
      refine ⟨_, rfl, rfl, ?_⟩
      exact batch_libCmd_local _ (fun r : E.TextInput × Option LibCmd => r.2)
    · rw [if_neg hnav]
      refine ⟨_, rfl, hstate, ?_⟩
      exact batch_libCmd_local _ (fun t => (E.textinput_Update (Msg.KeyMsg k) t).2)

/-- Claim C4.  From the credential form, every sequence of key events in which no enter
is pressed while the last field has the focus runs to the end, leaves the screen on the
credential form, and none of the commands issued along the way is a remote or
persistence command (the commands that are issued are the ones the text fields return,
and `tea.Quit` on Ctrl-C). -/
theorem form_keys_issue_no_remote_command (E : Env) (m : model E) (ks : List Key)
    (hstate : m.state = viewState.formView) (hno : noSubmit E m ks = true) :
    ∃ r, run E m (ks.map Msg.KeyMsg) = some r ∧ r.1.state = viewState.formView ∧
      ∀ c ∈ r.2, c.isRemoteOrPersist = false := by
  induction ks generalizing m with
  | nil => exact ⟨(m, []), rfl, hstate, by simp⟩
  | cons k ks ih =>
    simp only [noSubmit, Bool.and_eq_true, Bool.not_eq_true'] at hno
    obtain ⟨r, hr, hrs, hrc⟩ := updateForm_stays E m k hstate hno.1
    have hno2 : noSubmit E r.1 ks = true := by
      have := hno.2
      rw [hr] at this
      exact this
    obtain ⟨r2, hr2, hrs2, hrc2⟩ := ih r.1 hrs hno2
    refine ⟨(r2.1, r.2 ++ r2.2), ?_, hrs2, ?_⟩
    · simp [run, hr, hr2]
    · intro c hmem
      rcases List.mem_append.mp hmem with h | h
      · exact hrc c h
      · exact hrc2 c h

/-- C4 on the initial form: type, tab, type, tab, then enter with the focus index past
the last field. -/
theorem form_keys_issue_no_remote_command_witness :
    formStart.state = viewState.formView ∧
    noSubmit bubbles formStart
      [⟨KeyType.KeyRunes, "a"⟩, ⟨KeyType.KeyTab, "tab"⟩, ⟨KeyType.KeyRunes, "b"⟩,
        ⟨KeyType.KeyTab, "tab"⟩, enterKey] = true ∧
    ∃ r, run bubbles formStart
        ([⟨KeyType.KeyRunes, "a"⟩, ⟨KeyType.KeyTab, "tab"⟩, ⟨KeyType.KeyRunes, "b"⟩,
          ⟨KeyType.KeyTab, "tab"⟩, enterKey].map Msg.KeyMsg) = some r ∧
      r.1.state = viewState.formView ∧ ∀ c ∈ r.2, c.isRemoteOrPersist = false :=
  ⟨by decide, by decide,
    form_keys_issue_no_remote_command bubbles formStart _ (by decide) (by decide)⟩

/-! ## Committing `w` in the editor (C5, C6, C7) -/

/-- Claim C5 as stated fails: with description and status unchanged and the comment
buffer empty, committing `w` returns a batch that is not empty. It holds the
post-comment command built with the empty text. -/
theorem write_unchanged_issues_comment_command :
    bubbles.textarea_Value (editing "w" "old text" "open" "").descriptionBox
      = (editing "w" "old text" "open" "").selectedTask.Content ∧
    (editing "w" "old text" "open" "").selectedStatus
      = (editing "w" "old text" "open" "").selectedTask.Status.Status ∧
    bubbles.textinput_Value (editing "w" "old text" "open" "").commentBox = "" ∧
    (Update bubbles (editing "w" "old text" "open" "") (Msg.KeyMsg enterKey)).map
        (fun r => (r.1.state, r.2))
      = some (viewState.listView, [Cmd.postCommentCmd "tok" "t1" ""]) ∧
    (Update bubbles (editing "w" "old text" "open" "") (Msg.KeyMsg enterKey)).map Prod.snd
      ≠ some [] := by
  decide

/-- Claim C5, amended.  In command mode, committing `w` with the description buffer
equal to the task content, the staged status equal to the task status and the comment
buffer empty sets the screen to the task list and returns exactly one command: the
post-comment command built with the empty text, which sends no request when it runs.
No update-task command is issued. -/
theorem write_unchanged_only_noop_comment (E : Env) (m : model E) (k : Key)
    (hstate : m.state = viewState.editTaskView) (hmode : m.commandMode = true)
    (hkey : k.keyType = KeyType.KeyEnter)
    (hcmd : E.textinput_Value m.commandInput = "w")
    (hdesc : E.textarea_Value m.descriptionBox = m.selectedTask.Content)
    (hstatus : m.selectedStatus = m.selectedTask.Status.Status)
    (hcomment : E.textinput_Value m.commentBox = "") :
    Update E m (Msg.KeyMsg k) =
      some ({ m with
          commandInput := E.textinput_Reset m.commandInput
          commandMode := false
          state := viewState.listView },
        [Cmd.postCommentCmd m.apiToken m.selectedTask.ID ""]) ∧
    postCommentSent "" = none := by
  refine ⟨?_, rfl⟩
  rw [editTask_write E m k hstate hmode hkey hcmd]
  simp [writeCmds, hdesc, hstatus, hcomment, postCommentCmd, batch]

/-- The amended C5 on the editor of `sampleTask` with nothing changed. -/
theorem write_unchanged_only_noop_comment_witness :
    (editing "w" "old text" "open" "").state = viewState.editTaskView ∧
    (editing "w" "old text" "open" "").commandMode = true ∧
    enterKey.keyType = KeyType.KeyEnter ∧
    (Update bubbles (editing "w" "old text" "open" "") (Msg.KeyMsg enterKey) =
      some ({ editing "w" "old text" "open" "" with
          commandInput := bubbles.textinput_Reset (editing "w" "old text" "open" "").commandInput
          commandMode := false
          state := viewState.listView },
        [Cmd.postCommentCmd "tok" "t1" ""]) ∧
    postCommentSent "" = none) :=
  ⟨rfl, rfl, rfl,
    write_unchanged_only_noop_comment bubbles (editing "w" "old text" "open" "") enterKey
      rfl rfl rfl rfl rfl rfl rfl⟩

/-- Claim C6 as stated fails when the staged status is the empty string: the description
is unchanged, the staged status differs from the original `open`, one update-task command
is issued, and when it runs its payload map is empty, so it sends nothing: no `status`
key reaches the service. -/
theorem write_empty_status_sends_nothing :
    bubbles.textarea_Value (editing "w" "old text" "" "").descriptionBox
      = (editing "w" "old text" "" "").selectedTask.Content ∧
    (editing "w" "old text" "" "").selectedStatus
      ≠ (editing "w" "old text" "" "").selectedTask.Status.Status ∧
    (Update bubbles (editing "w" "old text" "" "") (Msg.KeyMsg enterKey)).map Prod.snd
      = some [Cmd.postCommentCmd "tok" "t1" "", Cmd.updateTaskCmd "tok" "t1" "" ""] ∧
    updateTaskPayload "" "" = [] ∧
    updateTaskSent "" "" = none := by
  decide

/-- Claim C6, amended.  Committing `w` when the description buffer equals the task
content and the staged status differs from the task status and is not the empty string
issues, after the post-comment command, exactly one update-task command; the payload it
sends is the single pair `status` = staged value, with no `description` key. -/
theorem write_status_only_payload (E : Env) (m : model E) (k : Key)
    (hstate : m.state = viewState.editTaskView) (hmode : m.commandMode = true)
    (hkey : k.keyType = KeyType.KeyEnter)
    (hcmd : E.textinput_Value m.commandInput = "w")
    (hdesc : E.textarea_Value m.descriptionBox = m.selectedTask.Content)
    (hstatus : m.selectedStatus ≠ m.selectedTask.Status.Status)
    (hne : m.selectedStatus ≠ "") :
    Update E m (Msg.KeyMsg k) =
      some ({ m with
          commandInput := E.textinput_Reset m.commandInput
          commandMode := false
          state := viewState.listView },
        [Cmd.postCommentCmd m.apiToken m.selectedTask.ID (E.textinput_Value m.commentBox),
          Cmd.updateTaskCmd m.apiToken m.selectedTask.ID "" m.selectedStatus]) ∧
    updateTaskSent "" m.selectedStatus = some [("status", m.selectedStatus)] := by
  constructor
  · rw [editTask_write E m k hstate hmode hkey hcmd]
    simp [writeCmds, hdesc, hstatus, postCommentCmd, updateTaskCmd, batch]
  · simp [updateTaskSent, updateTaskPayload, hne]

/-- The amended C6 on the editor of `sampleTask` with the status `done` staged. -/
theorem write_status_only_payload_witness :
    (editing "w" "old text" "done" "").state = viewState.editTaskView ∧
    (editing "w" "old text" "done" "").selectedStatus
      ≠ (editing "w" "old text" "done" "").selectedTask.Status.Status ∧
    (editing "w" "old text" "done" "").selectedStatus ≠ "" ∧
    (Update bubbles (editing "w" "old text" "done" "") (Msg.KeyMsg enterKey) =
      some ({ editing "w" "old text" "done" "" with
          commandInput := bubbles.textinput_Reset (editing "w" "old text" "done" "").commandInput
          commandMode := false
          state := viewState.listView },
        [Cmd.postCommentCmd "tok" "t1" "", Cmd.updateTaskCmd "tok" "t1" "" "done"]) ∧
    updateTaskSent "" "done" = some [("status", "done")]) :=
  ⟨rfl, by decide, by decide,
    write_status_only_payload bubbles (editing "w" "old text" "done" "") enterKey
      rfl rfl rfl rfl rfl (by decide) (by decide)⟩

/-- Claim C7, what the code does where the claim fails.  When the description buffer has
been cleared (it is the empty string and the task content is not), committing `w` issues
an update-task command built with the empty description; the payload of that command has
no `description` key, and when the status is unchanged too the command sends nothing. -/
theorem write_cleared_description_not_sent (E : Env) (m : model E) (k : Key)
    (hstate : m.state = viewState.editTaskView) (hmode : m.commandMode = true)
    (hkey : k.keyType = KeyType.KeyEnter)
    (hcmd : E.textinput_Value m.commandInput = "w")
    (hdesc : E.textarea_Value m.descriptionBox = "")
    (horig : m.selectedTask.Content ≠ "") :
    ∃ st, Update E m (Msg.KeyMsg k) =
      some ({ m with
          commandInput := E.textinput_Reset m.commandInput
          commandMode := false
          state := viewState.listView },
        [Cmd.postCommentCmd m.apiToken m.selectedTask.ID (E.textinput_Value m.commentBox),
          Cmd.updateTaskCmd m.apiToken m.selectedTask.ID "" st]) ∧
      "description" ∉ keysOf (updateTaskPayload "" st) ∧
      (m.selectedStatus = m.selectedTask.Status.Status → updateTaskSent "" st = none) := by
  have hchg : ¬ ("" = m.selectedTask.Content) := fun h => horig h.symm
  refine ⟨if m.selectedStatus ≠ m.selectedTask.Status.Status then m.selectedStatus else "",
    ?_, ?_, ?_⟩
  · rw [editTask_write E m k hstate hmode hkey hcmd]
    simp [writeCmds, hchg, hdesc, postCommentCmd, updateTaskCmd, batch]
  · simp only [updateTaskPayload, keysOf]
    split_ifs <;> simp_all
  · intro hs
    simp [hs, updateTaskSent, updateTaskPayload]

/-- The failing input of C7: the description of `sampleTask` (`old text`) cleared in the
editor, status unchanged, `w` committed. -/
theorem write_cleared_description_not_sent_witness :
    (editing "w" "" "open" "").state = viewState.editTaskView ∧
    bubbles.textarea_Value (editing "w" "" "open" "").descriptionBox = "" ∧
    (editing "w" "" "open" "").selectedTask.Content = "old text" ∧
    ∃ st, Update bubbles (editing "w" "" "open" "") (Msg.KeyMsg enterKey) =
      some ({ editing "w" "" "open" "" with
          commandInput := bubbles.textinput_Reset (editing "w" "" "open" "").commandInput
          commandMode := false
          state := viewState.listView },
        [Cmd.postCommentCmd "tok" "t1" "", Cmd.updateTaskCmd "tok" "t1" "" st]) ∧
      "description" ∉ keysOf (updateTaskPayload "" st) ∧
      ((editing "w" "" "open" "").selectedStatus
          = (editing "w" "" "open" "").selectedTask.Status.Status →
        updateTaskSent "" st = none) :=
  ⟨rfl, rfl, rfl,
    write_cleared_description_not_sent bubbles (editing "w" "" "open" "") enterKey
      rfl rfl rfl rfl rfl (by decide)⟩

/-- Where C7 holds: a description buffer that differs from the task content and is not
empty is sent as `description`, together with `status` exactly when the staged status
differs from the task status (the staged status being non-empty when it differs). -/
theorem write_changed_description_payload (E : Env) (m : model E) (k : Key)
    (hstate : m.state = viewState.editTaskView) (hmode : m.commandMode = true)
    (hkey : k.keyType = KeyType.KeyEnter)
    (hcmd : E.textinput_Value m.commandInput = "w")
    (hdesc : E.textarea_Value m.descriptionBox ≠ m.selectedTask.Content)
    (hne : E.textarea_Value m.descriptionBox ≠ "")
    (hst : m.selectedStatus = m.selectedTask.Status.Status ∨ m.selectedStatus ≠ "") :
    ∃ st, Update E m (Msg.KeyMsg k) =
      some ({ m with
          commandInput := E.textinput_Reset m.commandInput
          commandMode := false
          state := viewState.listView },
        [Cmd.postCommentCmd m.apiToken m.selectedTask.ID (E.textinput_Value m.commentBox),
          Cmd.updateTaskCmd m.apiToken m.selectedTask.ID (E.textarea_Value m.descriptionBox)
            st]) ∧
    updateTaskSent (E.textarea_Value m.descriptionBox) st =
      some (if m.selectedStatus ≠ m.selectedTask.Status.Status
        then [("description", E.textarea_Value m.descriptionBox), ("status", m.selectedStatus)]
        else [("description", E.textarea_Value m.descriptionBox)]) := by
  rw [editTask_write E m k hstate hmode hkey hcmd]
  by_cases hs : m.selectedStatus = m.selectedTask.Status.Status
  · refine ⟨"", ?_, ?_⟩
    · simp [writeCmds, hdesc, hs, postCommentCmd, updateTaskCmd, batch]
    · simp [updateTaskSent, updateTaskPayload, hne, hs]
  · have hne2 : m.selectedStatus ≠ "" := by
      rcases hst with h | h
      · exact absurd h hs
      · exact h
    refine ⟨m.selectedStatus, ?_, ?_⟩
    · simp [writeCmds, hdesc, hs, postCommentCmd, updateTaskCmd, batch]
    · simp [updateTaskSent, updateTaskPayload, hne, hs, hne2]

/-! ## The wizard: priority and assignees (C8, C9) -/

/-- Claim C8.  For every entry `p` of the fixed priority list, enter on the priority
step with `p` highlighted issues one create-task command with `p.Value`; the payload of
that command has `name`, `description`, `status` and `assignees`, followed by `priority`
= `p.Value` unless `p` is `None`, in which case there is no `priority` key; `None` is the
entry with value 0. -/
theorem priority_commit_payload (E : Env) (m : model E) (k : Key) (p : Priority)
    (hstate : m.state = viewState.createTaskPriorityView)
    (hkey : k.keyType ≠ KeyType.KeyCtrlC) (henter : k.str = "enter")
    (hp : Item.priority p ∈ priorities)
    (hsel : E.list_SelectedItem m.priorityList = some (Item.priority p)) :
    Update E m (Msg.KeyMsg k) =
      some ({ m with newTaskPriority := p.Value },
        [Cmd.createTaskCmd m.apiToken m.listID m.newTaskTitle m.newTaskDesc m.newTaskStatus
          m.newTaskAssignees p.Value]) ∧
    createTaskPayload m.newTaskTitle m.newTaskDesc m.newTaskStatus m.newTaskAssignees p.Value =
      [("name", JVal.str m.newTaskTitle), ("description", JVal.str m.newTaskDesc),
        ("status", JVal.str m.newTaskStatus), ("assignees", JVal.ints m.newTaskAssignees)]
      ++ (if p.Name = "None" then [] else [("priority", JVal.num p.Value)]) ∧
    (p.Name = "None" ↔ p.Value = 0) := by
  refine ⟨?_, ?_, ?_⟩
  · simp [Update, dispatch, updateCreateTaskPriority, hstate, hkey, henter, hsel]
  · simp only [priorities, List.mem_cons, Item.priority.injEq, List.mem_singleton,
      List.not_mem_nil, or_false] at hp
    rcases hp with rfl | rfl | rfl | rfl | rfl <;> simp [createTaskPayload]
  · simp only [priorities, List.mem_cons, Item.priority.injEq, List.mem_singleton,
      List.not_mem_nil, or_false] at hp
    rcases hp with rfl | rfl | rfl | rfl | rfl <;> simp

/-- C8 with `None` highlighted. -/
theorem priority_commit_payload_witness :
    (atPriority 4).state = viewState.createTaskPriorityView ∧
    enterKey.keyType ≠ KeyType.KeyCtrlC ∧ enterKey.str = "enter" ∧
    Item.priority ⟨"None", 0, "#ffffff"⟩ ∈ priorities ∧
    bubbles.list_SelectedItem (atPriority 4).priorityList
      = some (Item.priority ⟨"None", 0, "#ffffff"⟩) ∧
    (Update bubbles (atPriority 4) (Msg.KeyMsg enterKey) =
      some ({ atPriority 4 with newTaskPriority := 0 },
        [Cmd.createTaskCmd "tok" "l1" "Fix bug" "details" "open" [7] 0]) ∧
    createTaskPayload "Fix bug" "details" "open" [7] 0 =
      [("name", JVal.str "Fix bug"), ("description", JVal.str "details"),
        ("status", JVal.str "open"), ("assignees", JVal.ints [7])]
      ++ (if "None" = "None" then [] else [("priority", JVal.num 0)]) ∧
    ("None" = "None" ↔ (0 : Int) = 0)) :=
  ⟨rfl, by decide, rfl, by decide, rfl,
    priority_commit_payload bubbles (atPriority 4) enterKey ⟨"None", 0, "#ffffff"⟩
      rfl (by decide) rfl (by decide) rfl⟩

/-- Membership after one toggle: flipped at `id`, unchanged elsewhere. -/
theorem toggleAssignee_mem (s : Finset Int) (id x : Int) :
    x ∈ toggleAssignee s id ↔ if x = id then x ∉ s else x ∈ s := by
  unfold toggleAssignee
  by_cases hid : id ∈ s <;> by_cases hx : x = id
  · subst hx; simp [hid]
  · simp [hid, hx, Finset.mem_erase]
  · subst hx; simp [hid]
  · simp [hid, hx, Finset.mem_insert]

/-- Toggling the same identifier twice gives the set back. -/
theorem toggleAssignee_twice (s : Finset Int) (id : Int) :
    toggleAssignee (toggleAssignee s id) id = s := by
  ext x
  rw [toggleAssignee_mem, toggleAssignee_mem]
  by_cases hx : x = id <;> simp [hx]

/-- One press of space on the assignee step with a member highlighted. -/
theorem assignee_space (E : Env) (m : model E) (k : Key) (s : Finset Int) (mem : Member)
    (hstate : m.state = viewState.createTaskAssigneeView)
    (hkey : k.keyType ≠ KeyType.KeyCtrlC) (hspace : k.str = " ")
    (hmap : m.selectedAssignees = some s)
    (hsel : E.list_SelectedItem m.assigneeList = some (Item.member mem)) :
    ∃ r, Update E m (Msg.KeyMsg k) = some r ∧
      r.1.selectedAssignees = some (toggleAssignee s mem.ID) ∧
      r.1.state = viewState.createTaskAssigneeView := by
  simp [Update, dispatch, updateCreateTaskAssignee, hstate, hkey, hspace, hmap, hsel]

/-- Claim C9.  On the assignee step with selection set `s` and member `mem`
highlighted, one press of space yields the selection with the membership of `mem.ID`
flipped and every other identifier as before; if the same member is still highlighted, a
second press yields exactly `s` again. -/
theorem assignee_double_toggle (E : Env) (m : model E) (k : Key) (s : Finset Int)
    (mem : Member)
    (hstate : m.state = viewState.createTaskAssigneeView)
    (hkey : k.keyType ≠ KeyType.KeyCtrlC) (hspace : k.str = " ")
    (hmap : m.selectedAssignees = some s)
    (hsel : E.list_SelectedItem m.assigneeList = some (Item.member mem)) :
    ∃ r, Update E m (Msg.KeyMsg k) = some r ∧
      r.1.selectedAssignees = some (toggleAssignee s mem.ID) ∧
      (∀ x, x ∈ toggleAssignee s mem.ID ↔ if x = mem.ID then x ∉ s else x ∈ s) ∧
      (E.list_SelectedItem r.1.assigneeList = some (Item.member mem) →
        ∃ r2, Update E r.1 (Msg.KeyMsg k) = some r2 ∧ r2.1.selectedAssignees = some s) := by
  obtain ⟨r, hr, hr1, hr2⟩ := assignee_space E m k s mem hstate hkey hspace hmap hsel
  refine ⟨r, hr, hr1, toggleAssignee_mem s mem.ID, ?_⟩
  intro hsel2
  obtain ⟨r2, h1, h2, _⟩ := assignee_space E r.1 k _ mem hr2 hkey hspace hr1 hsel2
  exact ⟨r2, h1, by rw [h2, toggleAssignee_twice]⟩

/-- C9 with member 9 selected and member 7 highlighted. -/
theorem assignee_double_toggle_witness :
    (atAssignee {9}).state = viewState.createTaskAssigneeView ∧
    spaceKey.keyType ≠ KeyType.KeyCtrlC ∧ spaceKey.str = " " ∧
    (atAssignee {9}).selectedAssignees = some {9} ∧
    bubbles.list_SelectedItem (atAssignee {9}).assigneeList
      = some (Item.member ⟨7, "ann", "ann@x.io"⟩) ∧
    ∃ r, Update bubbles (atAssignee {9}) (Msg.KeyMsg spaceKey) = some r ∧
      r.1.selectedAssignees = some (toggleAssignee {9} 7) ∧
      (∀ x, x ∈ toggleAssignee ({9} : Finset Int) 7 ↔
        if x = 7 then x ∉ ({9} : Finset Int) else x ∈ ({9} : Finset Int)) ∧
      (bubbles.list_SelectedItem r.1.assigneeList = some (Item.member ⟨7, "ann", "ann@x.io"⟩) →
        ∃ r2, Update bubbles r.1 (Msg.KeyMsg spaceKey) = some r2 ∧
          r2.1.selectedAssignees = some {9}) :=
  ⟨rfl, by decide, rfl, rfl, rfl,
    assignee_double_toggle bubbles (atAssignee {9}) spaceKey {9} ⟨7, "ann", "ann@x.io"⟩
      rfl (by decide) rfl rfl rfl⟩

/-! ## Merging the two list results (C10) -/

/-- A folder-less lists result on the list picker: its lists are appended. -/
theorem lists_step (E : Env) (m : model E) (L : List ListInfo)
    (hstate : m.state = viewState.listSelectionView) :
    ∃ r, Update E m (Msg.ListsResponse L) = some r ∧
      r.1.allLists = m.allLists ++ L.map Item.listInfo ∧
      r.1.state = viewState.listSelectionView := by
  simp [Update, dispatch, updateListSelection, hstate]

/-- A folders result on the list picker: the renamed nested lists are appended. -/
theorem folders_step (E : Env) (m : model E) (F : List Folder)
    (hstate : m.state = viewState.listSelectionView) :
    ∃ r, Update E m (Msg.FoldersResponse F) = some r ∧
      r.1.allLists = m.allLists ++ (F.map folderLists).flatten ∧
      r.1.state = viewState.listSelectionView := by
  simp [Update, dispatch, updateListSelection, hstate]

/-- Claim C10 as stated fails: with one folder-less list `A` and one folder `F` holding
list `B`, lists-then-folders ends with `[A, F / B]` and folders-then-lists with
`[F / B, A]`, in `allLists` and in the items of the list widget alike. -/
theorem list_results_order_differs :
    (run bubbles atListSelection
        [Msg.ListsResponse [⟨"1", "A"⟩], Msg.FoldersResponse [⟨"f", "F", [⟨"2", "B"⟩]⟩]]).map
        (fun r => (r.1.allLists, r.1.folderlessList.items))
      = some ([Item.listInfo ⟨"1", "A"⟩, Item.listInfo ⟨"2", "F / B"⟩],
          [Item.listInfo ⟨"1", "A"⟩, Item.listInfo ⟨"2", "F / B"⟩]) ∧
    (run bubbles atListSelection
        [Msg.FoldersResponse [⟨"f", "F", [⟨"2", "B"⟩]⟩], Msg.ListsResponse [⟨"1", "A"⟩]]).map
        (fun r => (r.1.allLists, r.1.folderlessList.items))
      = some ([Item.listInfo ⟨"2", "F / B"⟩, Item.listInfo ⟨"1", "A"⟩],
          [Item.listInfo ⟨"2", "F / B"⟩, Item.listInfo ⟨"1", "A"⟩]) ∧
    (run bubbles atListSelection
        [Msg.ListsResponse [⟨"1", "A"⟩], Msg.FoldersResponse [⟨"f", "F", [⟨"2", "B"⟩]⟩]]).map
        (fun r => r.1.allLists)
      ≠ (run bubbles atListSelection
        [Msg.FoldersResponse [⟨"f", "F", [⟨"2", "B"⟩]⟩], Msg.ListsResponse [⟨"1", "A"⟩]]).map
        (fun r => r.1.allLists) := by
  decide

/-- Claim C10, amended.  On the list picker, delivering a folder-less lists result `L`
then a folders result `F`, and delivering `F` then `L`, both succeed; the first ends with
`allLists` = old entries, then the lists of `L`, then the renamed lists of `F`; the
second with the old entries, then those of `F`, then those of `L`.  The two collections
hold the same entries and are permutations of each other. -/
theorem list_results_merge_perm (E : Env) (m : model E) (L : List ListInfo)
    (F : List Folder) (hstate : m.state = viewState.listSelectionView) :
    ∃ a b, run E m [Msg.ListsResponse L, Msg.FoldersResponse F] = some a ∧
      run E m [Msg.FoldersResponse F, Msg.ListsResponse L] = some b ∧
      a.1.allLists = m.allLists ++ L.map Item.listInfo ++ (F.map folderLists).flatten ∧
      b.1.allLists = m.allLists ++ (F.map folderLists).flatten ++ L.map Item.listInfo ∧
      a.1.allLists.Perm b.1.allLists := by
  obtain ⟨r1, h1, a1, s1⟩ := lists_step E m L hstate
  obtain ⟨r2, h2, a2, _⟩ := folders_step E r1.1 F s1
  obtain ⟨q1, g1, b1, t1⟩ := folders_step E m F hstate
  obtain ⟨q2, g2, b2, _⟩ := lists_step E q1.1 L t1
  have ha : r2.1.allLists
      = m.allLists ++ L.map Item.listInfo ++ (F.map folderLists).flatten := by
    rw [a2, a1]
  have hb : q2.1.allLists
      = m.allLists ++ (F.map folderLists).flatten ++ L.map Item.listInfo := by
    rw [b2, b1]
  refine ⟨_, _, run_two E m _ _ r1 r2 h1 h2, run_two E m _ _ q1 q2 g1 g2, ha, hb, ?_⟩
  show r2.1.allLists.Perm q2.1.allLists
  rw [ha, hb, List.append_assoc, List.append_assoc]
  exact List.Perm.append_left _ List.perm_append_comm

/-- The amended C10 on the list picker with one folder-less list and one folder. -/
theorem list_results_merge_perm_witness :
    atListSelection.state = viewState.listSelectionView ∧
    ∃ a b,
      run bubbles atListSelection
        [Msg.ListsResponse [⟨"1", "A"⟩], Msg.FoldersResponse [⟨"f", "F", [⟨"2", "B"⟩]⟩]]
        = some a ∧
      run bubbles atListSelection
        [Msg.FoldersResponse [⟨"f", "F", [⟨"2", "B"⟩]⟩], Msg.ListsResponse [⟨"1", "A"⟩]]
        = some b ∧
      a.1.allLists = atListSelection.allLists ++ [⟨"1", "A"⟩].map Item.listInfo
        ++ ([(⟨"f", "F", [⟨"2", "B"⟩]⟩ : Folder)].map folderLists).flatten ∧
      b.1.allLists = atListSelection.allLists
        ++ ([(⟨"f", "F", [⟨"2", "B"⟩]⟩ : Folder)].map folderLists).flatten
        ++ [⟨"1", "A"⟩].map Item.listInfo ∧
      a.1.allLists.Perm b.1.allLists :=
  ⟨rfl,
    list_results_merge_perm bubbles atListSelection [⟨"1", "A"⟩] [⟨"f", "F", [⟨"2", "B"⟩]⟩] rfl⟩

/-! ## The merged collection (C11) -/

/-- The renamed lists of the source are the qualified entries of the specification. -/
theorem folderLists_eq (F : List Folder) :
    (F.map folderLists).flatten = qualifiedLists F := rfl

/-- One qualified entry per nested list. -/
theorem qualifiedLists_length (F : List Folder) :
    (qualifiedLists F).length = (F.map fun f => f.Lists.length).sum := by
  induction F with
  | nil => rfl
  | cons f F ih =>
    simp only [qualifiedLists, List.map_cons, List.flatten_cons, List.length_append,
      List.length_map, List.sum_cons] at ih ⊢
    rw [ih]

/-- The list widget of the concrete environment keeps the two facts of `listLaws`. -/
theorem bubbles_listLaws : listLaws bubbles ListState.items := by
  refine ⟨fun _ _ => rfl, ?_⟩
  intro msg l h
  cases msg <;> first | rfl | simp [isDataResult] at h

/-- A folder-less lists result on the list picker: its lists are appended and the
picker is given the whole collection with `SetItems`, then updated with the message. -/
theorem lists_step_picker (E : Env) (m : model E) (L : List ListInfo)
    (hstate : m.state = viewState.listSelectionView) :
    ∃ r, Update E m (Msg.ListsResponse L) = some r ∧
      r.1.allLists = m.allLists ++ L.map Item.listInfo ∧
      r.1.state = viewState.listSelectionView ∧
      r.1.folderlessList = (E.list_Update (Msg.ListsResponse L)
        (E.list_SetItems (m.allLists ++ L.map Item.listInfo) m.folderlessList).1).1 := by
  simp [Update, dispatch, updateListSelection, hstate]

/-- A folders result on the list picker: the renamed nested lists are appended and the
picker is given the whole collection with `SetItems`, then updated with the message. -/
theorem folders_step_picker (E : Env) (m : model E) (F : List Folder)
    (hstate : m.state = viewState.listSelectionView) :
    ∃ r, Update E m (Msg.FoldersResponse F) = some r ∧
      r.1.allLists = m.allLists ++ (F.map folderLists).flatten ∧
      r.1.state = viewState.listSelectionView ∧
      r.1.folderlessList = (E.list_Update (Msg.FoldersResponse F)
        (E.list_SetItems (m.allLists ++ (F.map folderLists).flatten) m.folderlessList).1).1 := by
  simp [Update, dispatch, updateListSelection, hstate]

/-- Claim C11.  On the list picker with an empty collection, after a folder-less lists
result `L` and a folders result `F` have been delivered, in either order, `allLists` is,
as a multiset, the lists of `L` unchanged plus one entry `(l.id, f.name / l.name)` for
every list `l` nested in a folder `f` of `F`; its length is the number of lists of `L`
plus the number of nested lists, so nothing is dropped or duplicated.  The picker the
user selects from is the widget that was last given exactly that collection with
`SetItems` (and then updated with the second result), so for a list widget that keeps
`listLaws` the items of the picker are `allLists`: the same multiset. -/
theorem list_results_union (E : Env) (m : model E) (L : List ListInfo) (F : List Folder)
    (hstate : m.state = viewState.listSelectionView) (hempty : m.allLists = []) :
    ∃ a b, run E m [Msg.ListsResponse L, Msg.FoldersResponse F] = some a ∧
      run E m [Msg.FoldersResponse F, Msg.ListsResponse L] = some b ∧
      (a.1.allLists : Multiset Item)
        = (L.map Item.listInfo : Multiset Item) + (qualifiedLists F : Multiset Item) ∧
      (b.1.allLists : Multiset Item)
        = (L.map Item.listInfo : Multiset Item) + (qualifiedLists F : Multiset Item) ∧
      a.1.allLists.length = L.length + (F.map fun f => f.Lists.length).sum ∧
      b.1.allLists.length = L.length + (F.map fun f => f.Lists.length).sum ∧
      a.1.folderlessList = (E.list_Update (Msg.FoldersResponse F)
        (E.list_SetItems a.1.allLists (E.list_Update (Msg.ListsResponse L)
          (E.list_SetItems (L.map Item.listInfo) m.folderlessList).1).1).1).1 ∧
      b.1.folderlessList = (E.list_Update (Msg.ListsResponse L)
        (E.list_SetItems b.1.allLists (E.list_Update (Msg.FoldersResponse F)
          (E.list_SetItems (qualifiedLists F) m.folderlessList).1).1).1).1 ∧
      ∀ items : E.ListModel → List Item, listLaws E items →
        items a.1.folderlessList = a.1.allLists ∧
        items b.1.folderlessList = b.1.allLists ∧
        (items a.1.folderlessList : Multiset Item)
          = (L.map Item.listInfo : Multiset Item) + (qualifiedLists F : Multiset Item) ∧
        (items b.1.folderlessList : Multiset Item)
          = (L.map Item.listInfo : Multiset Item) + (qualifiedLists F : Multiset Item) := by
  obtain ⟨r1, h1, a1, s1, p1⟩ := lists_step_picker E m L hstate
  obtain ⟨r2, h2, a2, _, p2⟩ := folders_step_picker E r1.1 F s1
  obtain ⟨q1, g1, b1, t1, u1⟩ := folders_step_picker E m F hstate
  obtain ⟨q2, g2, b2, _, u2⟩ := lists_step_picker E q1.1 L t1
  have ha : r2.1.allLists = L.map Item.listInfo ++ qualifiedLists F := by
    rw [a2, a1, hempty, folderLists_eq]; rfl
  have hb : q2.1.allLists = qualifiedLists F ++ L.map Item.listInfo := by
    rw [b2, b1, hempty, folderLists_eq]; rfl
  have hma : (r2.1.allLists : Multiset Item)
      = (L.map Item.listInfo : Multiset Item) + (qualifiedLists F : Multiset Item) := by
    rw [ha, ← Multiset.coe_add]
  have hmb : (q2.1.allLists : Multiset Item)
      = (L.map Item.listInfo : Multiset Item) + (qualifiedLists F : Multiset Item) := by
    rw [hb, ← Multiset.coe_add, add_comm]
  have hpa : r2.1.folderlessList = (E.list_Update (Msg.FoldersResponse F)
      (E.list_SetItems r2.1.allLists (E.list_Update (Msg.ListsResponse L)
        (E.list_SetItems (L.map Item.listInfo) m.folderlessList).1).1).1).1 := by
    rw [p2, p1, a2, a1, hempty]; rfl
  have hpb : q2.1.folderlessList = (E.list_Update (Msg.ListsResponse L)
      (E.list_SetItems q2.1.allLists (E.list_Update (Msg.FoldersResponse F)
        (E.list_SetItems (qualifiedLists F) m.folderlessList).1).1).1).1 := by
    rw [u2, u1, b2, b1, hempty, folderLists_eq]; rfl
  refine ⟨_, _, run_two E m _ _ r1 r2 h1 h2, run_two E m _ _ q1 q2 g1 g2, hma, hmb,
    ?_, ?_, hpa, hpb, ?_⟩
  · show r2.1.allLists.length = _
    rw [ha, List.length_append, List.length_map, qualifiedLists_length]
  · show q2.1.allLists.length = _
    rw [hb, List.length_append, List.length_map, qualifiedLists_length, add_comm]
  · intro items hlaws
    have ia : items r2.1.folderlessList = r2.1.allLists := by
      rw [hpa, hlaws.2 (Msg.FoldersResponse F) _ rfl, hlaws.1]
    have ib : items q2.1.folderlessList = q2.1.allLists := by
      rw [hpb, hlaws.2 (Msg.ListsResponse L) _ rfl, hlaws.1]
    refine ⟨ia, ib, ?_, ?_⟩
    · show (items r2.1.folderlessList : Multiset Item) = _
      rw [ia]; exact hma
    · show (items q2.1.folderlessList : Multiset Item) = _
      rw [ib]; exact hmb

/-- C11 with two folder-less lists and a folder of two lists, on the list widget of the
concrete environment: the picker ends with the four entries in both orders. -/
theorem list_results_union_witness :
    atListSelection.state = viewState.listSelectionView ∧ atListSelection.allLists = [] ∧
    listLaws bubbles ListState.items ∧
    ∃ a b,
      run bubbles atListSelection
        [Msg.ListsResponse [⟨"1", "A"⟩, ⟨"2", "B"⟩],
          Msg.FoldersResponse [⟨"f", "F", [⟨"3", "C"⟩, ⟨"4", "D"⟩]⟩]] = some a ∧
      run bubbles atListSelection
        [Msg.FoldersResponse [⟨"f", "F", [⟨"3", "C"⟩, ⟨"4", "D"⟩]⟩],
          Msg.ListsResponse [⟨"1", "A"⟩, ⟨"2", "B"⟩]] = some b ∧
      (a.1.allLists : Multiset Item)
        = (([⟨"1", "A"⟩, ⟨"2", "B"⟩] : List ListInfo).map Item.listInfo : Multiset Item)
          + (qualifiedLists [⟨"f", "F", [⟨"3", "C"⟩, ⟨"4", "D"⟩]⟩] : Multiset Item) ∧
      (b.1.allLists : Multiset Item)
        = (([⟨"1", "A"⟩, ⟨"2", "B"⟩] : List ListInfo).map Item.listInfo : Multiset Item)
          + (qualifiedLists [⟨"f", "F", [⟨"3", "C"⟩, ⟨"4", "D"⟩]⟩] : Multiset Item) ∧
      a.1.allLists.length = 4 ∧ b.1.allLists.length = 4 ∧
      a.1.folderlessList.items = a.1.allLists ∧
      b.1.folderlessList.items = b.1.allLists ∧
      (a.1.folderlessList.items : Multiset Item)
        = (([⟨"1", "A"⟩, ⟨"2", "B"⟩] : List ListInfo).map Item.listInfo : Multiset Item)
          + (qualifiedLists [⟨"f", "F", [⟨"3", "C"⟩, ⟨"4", "D"⟩]⟩] : Multiset Item) ∧
      (b.1.folderlessList.items : Multiset Item)
        = (([⟨"1", "A"⟩, ⟨"2", "B"⟩] : List ListInfo).map Item.listInfo : Multiset Item)
          + (qualifiedLists [⟨"f", "F", [⟨"3", "C"⟩, ⟨"4", "D"⟩]⟩] : Multiset Item) := by
  obtain ⟨a, b, ha, hb, h1, h2, h3, h4, _, _, hp⟩ :=
    list_results_union bubbles atListSelection [⟨"1", "A"⟩, ⟨"2", "B"⟩]
      [⟨"f", "F", [⟨"3", "C"⟩, ⟨"4", "D"⟩]⟩] rfl rfl
  obtain ⟨i1, i2, i3, i4⟩ := hp ListState.items bubbles_listLaws
  exact ⟨rfl, rfl, bubbles_listLaws, a, b, ha, hb, h1, h2, h3, h4, i1, i2, i3, i4⟩

/-! ## Entering the task list (C12) -/

/-- Claim C12 as stated fails: from the space picker of a browsing session with `Eng`
highlighted, enter gives the task list of `s1` and the fetch-tasks command, but
`loading` is false and `View` shows the list widget, not the saving indicator. -/
theorem enter_space_does_not_set_loading :
    atSpaceSelection.state = viewState.spaceSelectionView ∧
    atSpaceSelection.isCreatingTask = false ∧
    bubbles.list_SelectedItem atSpaceSelection.spaceList = some (Item.space ⟨"s1", "Eng"⟩) ∧
    (Update bubbles atSpaceSelection (Msg.KeyMsg enterKey)).map
        (fun r => (r.1.state, r.1.loading, r.1.spaceID, View bubbles r.1, r.2))
      = some (viewState.listView, false, "s1", Rendered.screen viewState.listView,
          [Cmd.fetchTasksCmd "tok" "team" "s1"]) ∧
    (Update bubbles atSpaceSelection (Msg.KeyMsg enterKey)).map (fun r => r.1.loading)
      ≠ some true := by
  decide

/-- Claim C12, amended.  On the space picker outside task-creation mode with a space
highlighted, enter sets the screen to the task list, `spaceID` to the id of the
highlighted space, builds the empty task list and issues one fetch-tasks command for the
team and that space; every other field, `loading` included, is as before, so with no
error and no quit pending `View` shows the list widget when `loading` was false.  A
task-collection result on the task list sets `loading` to false and fills the list: the
list widget is given the tasks with `SetItems` and then updated with the message, so for
a list widget that keeps `listLaws` its items are exactly the tasks received. -/
theorem enter_space_opens_task_list (E : Env) (m : model E) (k : Key) (selected : Space)
    (hstate : m.state = viewState.spaceSelectionView) (hmode : m.isCreatingTask = false)
    (hkey : k.keyType ≠ KeyType.KeyCtrlC) (henter : k.str = "enter")
    (hsel : E.list_SelectedItem m.spaceList = some (Item.space selected)) :
    Update E m (Msg.KeyMsg k) =
      some ({ m with
          spaceID := selected.ID
          state := viewState.listView
          list := newTaskList E m selected },
        [Cmd.fetchTasksCmd m.apiToken m.teamID selected.ID]) ∧
    (m.err = none → m.quitting = false →
      View E { m with
          spaceID := selected.ID
          state := viewState.listView
          list := newTaskList E m selected }
        = if m.loading then Rendered.saving else Rendered.screen viewState.listView) ∧
    ∀ (m2 : model E) (xs : List Item), m2.state = viewState.listView →
      ∃ r, Update E m2 (Msg.items xs) = some r ∧ r.1.loading = false ∧
        r.1.state = viewState.listView ∧
        r.1.list = (E.list_Update (Msg.items xs) (E.list_SetItems xs m2.list).1).1 ∧
        ∀ items : E.ListModel → List Item, listLaws E items → items r.1.list = xs := by
  refine ⟨?_, ?_, ?_⟩
  · simp [Update, dispatch, updateSpaceSelection, hstate, hkey, henter, hsel, hmode]
  · intro herr hquit
    simp [View, herr, hquit]
  · intro m2 xs h2
    have hu : Update E m2 (Msg.items xs) =
        some ({ m2 with
            loading := false
            list := (E.list_Update (Msg.items xs) (E.list_SetItems xs m2.list).1).1 },
          batch [libCmd (E.list_Update (Msg.items xs) (E.list_SetItems xs m2.list).1).2]) := by
      simp [Update, dispatch, updateList, h2]
    refine ⟨_, hu, rfl, h2, rfl, ?_⟩
    intro items hlaws
    show items (E.list_Update (Msg.items xs) (E.list_SetItems xs m2.list).1).1 = xs
    rw [hlaws.2 (Msg.items xs) _ rfl, hlaws.1]

/-- The amended C12 on the space picker with `Eng` highlighted: enter opens the empty
task list of `s1`, and the task collection `[sampleTask]` then fills it. -/
theorem enter_space_opens_task_list_witness :
    atSpaceSelection.state = viewState.spaceSelectionView ∧
    atSpaceSelection.isCreatingTask = false ∧
    enterKey.keyType ≠ KeyType.KeyCtrlC ∧ enterKey.str = "enter" ∧
    bubbles.list_SelectedItem atSpaceSelection.spaceList = some (Item.space ⟨"s1", "Eng"⟩) ∧
    listLaws bubbles ListState.items ∧
    Update bubbles atSpaceSelection (Msg.KeyMsg enterKey) =
      some (taskListOpened, [Cmd.fetchTasksCmd "tok" "team" "s1"]) ∧
    View bubbles taskListOpened = Rendered.screen viewState.listView ∧
    taskListOpened.list.items = [] ∧
    ∃ r, Update bubbles taskListOpened (Msg.items [Item.task sampleTask]) = some r ∧
      r.1.loading = false ∧ r.1.state = viewState.listView ∧
      r.1.list.items = [Item.task sampleTask] := by
  obtain ⟨h1, h2, h3⟩ :=
    enter_space_opens_task_list bubbles atSpaceSelection enterKey ⟨"s1", "Eng"⟩
      rfl rfl (by decide) rfl rfl
  obtain ⟨r, hr, hl, hs, _, hi⟩ := h3 taskListOpened [Item.task sampleTask] rfl
  exact ⟨rfl, rfl, by decide, rfl, rfl, bubbles_listLaws, h1, h2 rfl rfl, rfl,
    r, hr, hl, hs, hi ListState.items bubbles_listLaws⟩

/-! ## The delete prompt (C13, C14) -/

/-- Claim C13.  On the delete prompt, for every session, a key reading `n`, `N` or
`esc` returns the same session with the screen set to the task list and no command; a
key that reads none of `y`, `Y`, `n`, `N`, `esc` (and is not Ctrl-C) returns the session
unchanged and no command. -/
theorem delete_prompt_declined (E : Env) (m : model E) (k : Key)
    (hstate : m.state = viewState.deleteConfirmationView)
    (hkey : k.keyType ≠ KeyType.KeyCtrlC) :
    ((k.str = "n" ∨ k.str = "N" ∨ k.str = "esc") →
      Update E m (Msg.KeyMsg k) = some ({ m with state := viewState.listView }, [])) ∧
    ((k.str ≠ "y" ∧ k.str ≠ "Y" ∧ k.str ≠ "n" ∧ k.str ≠ "N" ∧ k.str ≠ "esc") →
      Update E m (Msg.KeyMsg k) = some (m, [])) := by
  constructor
  · intro h
    have hy : ¬ (k.str = "y" ∨ k.str = "Y") := by
      rcases h with h | h | h <;> simp [h]
    simp [Update, dispatch, updateDeleteConfirmation, hstate, hkey, hy, h]
  · rintro ⟨h1, h2, h3, h4, h5⟩
    simp [Update, dispatch, updateDeleteConfirmation, hstate, hkey, h1, h2, h3, h4, h5]

/-- C13 on the delete prompt for `sampleTask` with the key `n`. -/
theorem delete_prompt_declined_witness :
    atDeleteConfirmation.state = viewState.deleteConfirmationView ∧
    (runeKey "n").keyType ≠ KeyType.KeyCtrlC ∧
    (((runeKey "n").str = "n" ∨ (runeKey "n").str = "N" ∨ (runeKey "n").str = "esc") →
      Update bubbles atDeleteConfirmation (Msg.KeyMsg (runeKey "n"))
        = some ({ atDeleteConfirmation with state := viewState.listView }, [])) ∧
    (((runeKey "n").str ≠ "y" ∧ (runeKey "n").str ≠ "Y" ∧ (runeKey "n").str ≠ "n" ∧
        (runeKey "n").str ≠ "N" ∧ (runeKey "n").str ≠ "esc") →
      Update bubbles atDeleteConfirmation (Msg.KeyMsg (runeKey "n"))
        = some (atDeleteConfirmation, [])) :=
  ⟨rfl, by decide,
    delete_prompt_declined bubbles atDeleteConfirmation (runeKey "n") rfl (by decide)⟩

/-- Claim C14, what the code does where the claim fails.  A response to DELETE with a
status other than 204 and body `b` makes the delete command resolve to the error
`delete task failed: b`.  Delivered after `y` or `Y` on the delete prompt, that error is
dropped: the session is the one `y` produced (screen task-deleted, `err` as before), the
only commands are the two issued by `y`, and `View` shows the deletion screen. -/
theorem delete_error_dropped (E : Env) (m : model E) (k : Key) (StatusCode : Int)
    (body : String)
    (hstate : m.state = viewState.deleteConfirmationView)
    (hkey : k.keyType ≠ KeyType.KeyCtrlC) (hyes : k.str = "y" ∨ k.str = "Y")
    (hcode : StatusCode ≠ 204) :
    deleteTaskResult (HttpOutcome.response StatusCode body)
      = Msg.error ("delete task failed: " ++ body) ∧
    ∃ r, run E m [Msg.KeyMsg k, deleteTaskResult (HttpOutcome.response StatusCode body)]
        = some r ∧
      r.1 = { m with state := viewState.taskDeletedView, progress := E.progress_New } ∧
      r.1.err = m.err ∧ r.1.state = viewState.taskDeletedView ∧
      r.2 = [Cmd.deleteTaskCmd m.apiToken m.selectedTask.ID, Cmd.tickNow] ∧
      (m.err = none → m.quitting = false →
        View E r.1 = Rendered.screen viewState.taskDeletedView) := by
  have h1 : deleteTaskResult (HttpOutcome.response StatusCode body)
      = Msg.error ("delete task failed: " ++ body) := by
    simp [deleteTaskResult, hcode]
  refine ⟨h1, ({ m with state := viewState.taskDeletedView, progress := E.progress_New },
    [Cmd.deleteTaskCmd m.apiToken m.selectedTask.ID, Cmd.tickNow]), ?_, rfl, rfl, rfl, rfl, ?_⟩
  · rw [h1]
    simp [run, Update, dispatch, updateDeleteConfirmation, updateTaskDeleted, hstate, hkey,
      hyes, batch]
  · intro herr hquit
    simp [View, herr, hquit]

/-- The failing input of C14: `y` on the delete prompt for `sampleTask`, then the
result of a 404 response with body `Task not found`. -/
theorem delete_error_dropped_witness :
    atDeleteConfirmation.state = viewState.deleteConfirmationView ∧
    atDeleteConfirmation.err = none ∧
    (deleteTaskResult (HttpOutcome.response 404 "Task not found")
      = Msg.error ("delete task failed: " ++ "Task not found") ∧
    ∃ r, run bubbles atDeleteConfirmation
          [Msg.KeyMsg (runeKey "y"),
            deleteTaskResult (HttpOutcome.response 404 "Task not found")] = some r ∧
      r.1 = { atDeleteConfirmation with
          state := viewState.taskDeletedView, progress := bubbles.progress_New } ∧
      r.1.err = atDeleteConfirmation.err ∧ r.1.state = viewState.taskDeletedView ∧
      r.2 = [Cmd.deleteTaskCmd "tok" "t1", Cmd.tickNow] ∧
      (atDeleteConfirmation.err = none → atDeleteConfirmation.quitting = false →
        View bubbles r.1 = Rendered.screen viewState.taskDeletedView)) :=
  ⟨rfl, rfl,
    delete_error_dropped bubbles atDeleteConfirmation (runeKey "y") 404 "Task not found"
      rfl (by decide) (Or.inl rfl) (by decide)⟩

/-! ## One create command per enter (C15) -/

/-- Enter on the priority step with a priority highlighted. -/
theorem priority_enter (E : Env) (m : model E) (k : Key) (p : Priority)
    (hstate : m.state = viewState.createTaskPriorityView)
    (hkey : k.keyType ≠ KeyType.KeyCtrlC) (henter : k.str = "enter")
    (hsel : E.list_SelectedItem m.priorityList = some (Item.priority p)) :
    Update E m (Msg.KeyMsg k) =
      some ({ m with newTaskPriority := p.Value },
        [Cmd.createTaskCmd m.apiToken m.listID m.newTaskTitle m.newTaskDesc m.newTaskStatus
          m.newTaskAssignees p.Value]) := by
  simp [Update, dispatch, updateCreateTaskPriority, hstate, hkey, henter, hsel]

/-- Claim C15 as stated fails: two enters in a row on the priority step, before any
result arrives, issue two create-task commands for the same draft. -/
theorem second_enter_creates_again :
    (run bubbles (atPriority 0) [Msg.KeyMsg enterKey, Msg.KeyMsg enterKey]).map
        (fun r => (r.1.state, r.2))
      = some (viewState.createTaskPriorityView,
          [Cmd.createTaskCmd "tok" "l1" "Fix bug" "details" "open" [7] 1,
            Cmd.createTaskCmd "tok" "l1" "Fix bug" "details" "open" [7] 1]) ∧
    (run bubbles (atPriority 0) [Msg.KeyMsg enterKey, Msg.KeyMsg enterKey]).map
        (fun r => (r.2.filter Cmd.isCreateTask).length)
      = some 2 := by
  decide

/-- Claim C15, amended.  On the priority step with a priority highlighted, every enter
issues one create-task command for the draft and leaves the screen on the priority step:
`n` enters in a row issue `n` create-task commands.  The result `create_success` moves
to the task-created screen, and there no key issues a create-task command. -/
theorem create_command_per_enter (E : Env) (m : model E) (k : Key) (p : Priority)
    (hstate : m.state = viewState.createTaskPriorityView)
    (hkey : k.keyType ≠ KeyType.KeyCtrlC) (henter : k.str = "enter")
    (hsel : E.list_SelectedItem m.priorityList = some (Item.priority p)) :
    (∀ n, run E m (List.replicate n (Msg.KeyMsg k)) =
      some (if n = 0 then m else { m with newTaskPriority := p.Value },
        List.replicate n (Cmd.createTaskCmd m.apiToken m.listID m.newTaskTitle m.newTaskDesc
          m.newTaskStatus m.newTaskAssignees p.Value))) ∧
    Update E m (Msg.string "create_success") =
      some ({ m with state := viewState.taskCreatedView, progress := E.progress_New },
        [Cmd.tickNow]) ∧
    (∀ (m2 : model E) (k2 : Key), m2.state = viewState.taskCreatedView →
      ∃ r, Update E m2 (Msg.KeyMsg k2) = some r ∧ r.1.state = viewState.taskCreatedView ∧
        ∀ c ∈ r.2, c.isCreateTask = false) := by
  refine ⟨?_, ?_, ?_⟩
  · intro n
    induction n generalizing m with
    | zero => simp [run]
    | succ n ih =>
      rw [List.replicate_succ, run, priority_enter E m k p hstate hkey henter hsel]
      have := ih { m with newTaskPriority := p.Value } hstate hsel
      simp only [this]
      cases n <;> simp [List.replicate_succ]
  · simp [Update, dispatch, updateCreateTaskPriority, hstate]
  · intro m2 k2 h2
    by_cases hc : k2.keyType = KeyType.KeyCtrlC
    · simp [Update, hc, h2, Cmd.isCreateTask]
    · simp [Update, hc, dispatch, h2, updateTaskCreated]

/-- The amended C15 on the priority step with `Urgent` highlighted. -/
theorem create_command_per_enter_witness :
    (atPriority 0).state = viewState.createTaskPriorityView ∧
    enterKey.keyType ≠ KeyType.KeyCtrlC ∧ enterKey.str = "enter" ∧
    bubbles.list_SelectedItem (atPriority 0).priorityList
      = some (Item.priority ⟨"Urgent", 1, "#ff0000"⟩) ∧
    ((∀ n, run bubbles (atPriority 0) (List.replicate n (Msg.KeyMsg enterKey)) =
      some (if n = 0 then atPriority 0 else { atPriority 0 with newTaskPriority := 1 },
        List.replicate n (Cmd.createTaskCmd "tok" "l1" "Fix bug" "details" "open" [7] 1))) ∧
    Update bubbles (atPriority 0) (Msg.string "create_success") =
      some ({ atPriority 0 with
          state := viewState.taskCreatedView, progress := bubbles.progress_New },
        [Cmd.tickNow]) ∧
    (∀ (m2 : model bubbles) (k2 : Key), m2.state = viewState.taskCreatedView →
      ∃ r, Update bubbles m2 (Msg.KeyMsg k2) = some r ∧
        r.1.state = viewState.taskCreatedView ∧ ∀ c ∈ r.2, c.isCreateTask = false)) :=
  ⟨rfl, by decide, rfl, rfl,
    create_command_per_enter bubbles (atPriority 0) enterKey ⟨"Urgent", 1, "#ff0000"⟩
      rfl (by decide) rfl rfl⟩

/-! ## Keys while the list is loading (C16) -/

/-- Claim C16 as stated fails: on the task list with `loading` true (and a task in the
list), the keys `v`, `e` and `d` leave the task list, and `v` issues two fetch
commands. -/
theorem keys_act_while_loading :
    (atTaskList true).state = viewState.listView ∧ (atTaskList true).loading = true ∧
    (Update bubbles (atTaskList true) (Msg.KeyMsg (runeKey "v"))).map
        (fun r => (r.1.state, r.2))
      = some (viewState.taskDetailView,
          [Cmd.fetchTaskDetailsCmd "tok" "t1", Cmd.fetchCommentsCmd "tok" "t1"]) ∧
    (Update bubbles (atTaskList true) (Msg.KeyMsg (runeKey "e"))).map
        (fun r => (r.1.state, r.2))
      = some (viewState.editTaskView, []) ∧
    (Update bubbles (atTaskList true) (Msg.KeyMsg (runeKey "d"))).map
        (fun r => (r.1.state, r.2))
      = some (viewState.deleteConfirmationView, []) := by
  decide

/-- Claim C16, amended.  On the task list the sentinel `refresh_list_success` sets
`loading` to true and issues the spinner tick and a fetch-tasks command for the current
team and space; with no error and no quit pending `View` then shows the saving
indicator.  The key handler does not read `loading`: a key does to a loading session
what it does to the same session not loading.  A task-collection result sets `loading`
to false. -/
theorem refresh_sets_loading_keys_unaffected (E : Env) (m : model E)
    (hstate : m.state = viewState.listView) :
    Update E m (Msg.string "refresh_list_success") =
      some ({ m with loading := true },
        [(E.spinner_Tick m.spinner).toCmd, Cmd.fetchTasksCmd m.apiToken m.teamID m.spaceID]) ∧
    (m.err = none → m.quitting = false → View E { m with loading := true } = Rendered.saving) ∧
    (∀ (k : Key) (b : Bool), Update E { m with loading := b } (Msg.KeyMsg k) =
      (Update E m (Msg.KeyMsg k)).map fun r => ({ r.1 with loading := b }, r.2)) ∧
    (∀ xs, ∃ r, Update E m (Msg.items xs) = some r ∧ r.1.loading = false ∧
      r.1.state = viewState.listView) := by
  refine ⟨?_, ?_, ?_, ?_⟩
  · simp [Update, dispatch, updateList, hstate, batch]
  · intro herr hquit
    simp [View, herr, hquit, hstate]
  · intro k b
    by_cases hc : k.keyType = KeyType.KeyCtrlC
    · simp [Update, hc]
    · simp only [Update, hc, if_false, dispatch, hstate, updateList, Option.map]
      split_ifs <;> (try split) <;> simp_all
  · intro xs
    simp [Update, dispatch, updateList, hstate]

/-- The amended C16 on the task list holding `sampleTask`. -/
theorem refresh_sets_loading_keys_unaffected_witness :
    (atTaskList false).state = viewState.listView ∧
    (Update bubbles (atTaskList false) (Msg.string "refresh_list_success") =
      some ({ atTaskList false with loading := true },
        [(bubbles.spinner_Tick (atTaskList false).spinner).toCmd,
          Cmd.fetchTasksCmd "tok" "team" "s1"]) ∧
    ((atTaskList false).err = none → (atTaskList false).quitting = false →
      View bubbles { atTaskList false with loading := true } = Rendered.saving) ∧
    (∀ (k : Key) (b : Bool),
      Update bubbles { atTaskList false with loading := b } (Msg.KeyMsg k) =
        (Update bubbles (atTaskList false) (Msg.KeyMsg k)).map
          fun r => ({ r.1 with loading := b }, r.2)) ∧
    (∀ xs, ∃ r, Update bubbles (atTaskList false) (Msg.items xs) = some r ∧
      r.1.loading = false ∧ r.1.state = viewState.listView)) :=
  ⟨rfl, refresh_sets_loading_keys_unaffected bubbles (atTaskList false) rfl⟩

/-! ## The editor modes (C17) -/

/-- Under the invariant, off the editor both mode flags are off. -/
theorem flags_off_of_not_editing (E : Env) (m : model E) (h : modesExclusive E m)
    (hs : m.state ≠ viewState.editTaskView) : m.insertMode = false ∧ m.commandMode = false := by
  obtain ⟨_, h2⟩ := h
  constructor
  · by_contra hc
    exact hs (h2 (Or.inl (by simpa using hc)))
  · by_contra hc
    exact hs (h2 (Or.inr (by simpa using hc)))

/-- With both mode flags off the invariant holds on any screen. -/
theorem modes_of_flags_off (E : Env) (m : model E) (h1 : m.insertMode = false)
    (h2 : m.commandMode = false) : modesExclusive E m := by
  simp [modesExclusive, h1, h2]

/-- The tail of `updateEditTask` changes neither flag nor the screen. -/
theorem editForward_modes (E : Env) (msg : Msg) (m : model E) :
    (editForward E msg m).1.insertMode = m.insertMode ∧
    (editForward E msg m).1.commandMode = m.commandMode ∧
    (editForward E msg m).1.state = m.state := by
  unfold editForward
  split_ifs <;> simp

/-- The editor handler keeps the invariant. -/
theorem updateEditTask_modes (E : Env) (msg : Msg) (m : model E)
    (hs : m.state = viewState.editTaskView) (h : modesExclusive E m) :
    modesExclusive E (updateEditTask E msg m).1 := by
  obtain ⟨h1, _⟩ := h
  unfold updateEditTask
  cases msg
  case KeyMsg k =>
    simp only
    split_ifs <;>
      simp_all [modesExclusive, editForward_modes]
  all_goals
    simp [modesExclusive, editForward_modes, hs, h1]

/-- Every handler but the editor leaves both mode flags off when they were off. -/
theorem other_handlers_keep_flags_off (E : Env) (msg : Msg) (m : model E)
    (hs : m.state ≠ viewState.editTaskView)
    (h1 : m.insertMode = false) (h2 : m.commandMode = false) :
    ∀ r, dispatch E m msg = some r → r.1.insertMode = false ∧ r.1.commandMode = false := by
  intro r hr
  cases hst : m.state
  case editTaskView => exact absurd hst hs
  case formView =>
    simp only [dispatch, hst, updateForm, updateInputs] at hr
    (repeat' split at hr) <;> simp_all <;> (subst hr; simp_all)
  case createTaskAssigneeView =>
    simp only [dispatch, hst, updateCreateTaskAssignee] at hr
    (repeat' split at hr) <;> simp_all <;> (subst hr; simp_all)
  all_goals
    simp only [dispatch, hst, updateSpaceSelection, updateListSelection, updateCreateTaskTitle,
      updateCreateTaskDesc, updateCreateTaskStatus, updateCreateTaskPriority,
      updateTaskCreated, updateList, updateStatusUpdate, updateTaskDetail,
      updateDeleteConfirmation, updateTaskDeleted, Option.some.injEq] at hr
    subst hr
    (repeat' split) <;> simp_all

/-- The screen handlers keep the invariant. -/
theorem dispatch_modes (E : Env) (m : model E) (msg : Msg) (r : model E × List Cmd)
    (h : modesExclusive E m) (hr : dispatch E m msg = some r) : modesExclusive E r.1 := by
  by_cases hs : m.state = viewState.editTaskView
  · simp only [dispatch, hs, Option.some.injEq] at hr
    subst hr
    exact updateEditTask_modes E msg m hs h
  · obtain ⟨h1, h2⟩ := flags_off_of_not_editing E m h hs
    obtain ⟨g1, g2⟩ := other_handlers_keep_flags_off E msg m hs h1 h2 r hr
    exact modes_of_flags_off E r.1 g1 g2

/-- `Update` keeps the invariant. -/
theorem Update_modes (E : Env) (m : model E) (msg : Msg) (r : model E × List Cmd)
    (h : modesExclusive E m) (hr : Update E m msg = some r) : modesExclusive E r.1 := by
  unfold Update at hr
  split at hr
  · refine dispatch_modes E _ _ r ?_ hr
    exact h
  · split_ifs at hr
    · simp only [Option.some.injEq] at hr
      subst hr
      exact h
    · exact dispatch_modes E _ _ r h hr
  · exact dispatch_modes E _ _ r h hr

/-- A run keeps the invariant. -/
theorem run_modes (E : Env) (m : model E) (msgs : List Msg) (r : model E × List Cmd)
    (h : modesExclusive E m) (hr : run E m msgs = some r) : modesExclusive E r.1 := by
  induction msgs generalizing m r with
  | nil =>
    simp only [run, Option.some.injEq] at hr
    subst hr
    exact h
  | cons msg msgs ih =>
    simp only [run] at hr
    split at hr
    · simp at hr
    · rename_i r1 h1
      split at hr
      · simp at hr
      · rename_i r2 h2
        simp only [Option.some.injEq] at hr
        subst hr
        exact ih r1.1 r2 (Update_modes E m msg r1 h h1) h2

/-- `newModel` starts with both mode flags off. -/
theorem newModel_modes (E : Env) (apiToken teamID : String) (creatingTask : Bool) :
    modesExclusive E (newModel E apiToken teamID creatingTask) := by
  apply modes_of_flags_off <;> (unfold newModel; split_ifs <;> rfl)

/-- The list subcommand starts with both mode flags off. -/
theorem listInitialModel_modes (E : Env) (apiToken teamID : String) (selectedTask : Task)
    (action : String) (m : model E)
    (h : listInitialModel E apiToken teamID selectedTask action = some m) :
    modesExclusive E m := by
  unfold listInitialModel at h
  have hn := newModel_modes E apiToken teamID false
  split_ifs at h <;> simp only [Option.some.injEq] at h <;> subst h
  · apply modes_of_flags_off
    · simp only [newModel]
      split_ifs
      rfl
    · simp only [newModel]
      split_ifs
      rfl
  · apply modes_of_flags_off
    · rfl
    · simp only [newModel]
      split_ifs
      rfl

/-- Claim C17.  In every session reached from `newModel` (any credentials, any
creation flag) or from the initial session of the list subcommand (view or edit) by any
sequence of events through `Update`, `insertMode` and `commandMode` are not both true,
and if either is true the screen is the editor. -/
theorem modes_exclusive_reachable (E : Env) (m0 m : model E) (msgs : List Msg)
    (hinit : (∃ apiToken teamID creatingTask, m0 = newModel E apiToken teamID creatingTask) ∨
      (∃ apiToken teamID selectedTask action,
        listInitialModel E apiToken teamID selectedTask action = some m0))
    (hrun : (run E m0 msgs).map Prod.fst = some m) : modesExclusive E m := by
  have h0 : modesExclusive E m0 := by
    rcases hinit with ⟨a, b, c, rfl⟩ | ⟨a, b, c, d, h⟩
    · exact newModel_modes E a b c
    · exact listInitialModel_modes E a b c d m0 h
  cases hr : run E m0 msgs with
  | none => simp [hr] at hrun
  | some r =>
    simp only [hr, Option.map_some', Option.some.injEq] at hrun
    subst hrun
    exact run_modes E m0 msgs r h0 hr

/-- C17 on a session that reaches the command line of the editor. -/
theorem modes_exclusive_reachable_witness :
    ((∃ apiToken teamID creatingTask,
        newModel bubbles "tok" "team" false = newModel bubbles apiToken teamID creatingTask) ∨
      (∃ apiToken teamID selectedTask action,
        listInitialModel bubbles apiToken teamID selectedTask action
          = some (newModel bubbles "tok" "team" false))) ∧
    (run bubbles (newModel bubbles "tok" "team" false) toCommandLine).map Prod.fst
      = some editorReached ∧
    editorReached.state = viewState.editTaskView ∧ editorReached.commandMode = true ∧
    editorReached.insertMode = false ∧
    modesExclusive bubbles editorReached :=
  ⟨Or.inl ⟨"tok", "team", false, rfl⟩, rfl, by decide, by decide, by decide,
    modes_exclusive_reachable bubbles (newModel bubbles "tok" "team" false) editorReached
      toCommandLine (Or.inl ⟨"tok", "team", false, rfl⟩) rfl⟩

/-! ## Normal-mode keys (C18) -/

/-- Claim C18, what the code does where the claim fails.  In normal mode the cases `i`
and `a` of `updateEditTask` set `insertMode` and focus a buffer but do not return, so the
same key event then goes to the buffer that now has the focus: after `i` the description
buffer is the focused buffer updated with the key `i`, after `a` (description buffer not
focused) the comment buffer is the focused comment buffer updated with the key `a`. -/
theorem normal_mode_key_reaches_buffer (E : Env) (m : model E) (k : Key)
    (hstate : m.state = viewState.editTaskView) (hcmd : m.commandMode = false)
    (hins : m.insertMode = false) (hkey : k.keyType ≠ KeyType.KeyCtrlC) :
    (k.str = "i" → E.textarea_Focused (E.textarea_Focus m.descriptionBox).1 = true →
      Update E m (Msg.KeyMsg k) =
        some ({ m with
            insertMode := true
            descriptionBox :=
              (E.textarea_Update (Msg.KeyMsg k) (E.textarea_Focus m.descriptionBox).1).1 },
          batch [libCmd
            (E.textarea_Update (Msg.KeyMsg k) (E.textarea_Focus m.descriptionBox).1).2])) ∧
    (k.str = "a" → E.textarea_Focused m.descriptionBox = false →
      Update E m (Msg.KeyMsg k) =
        some ({ m with
            insertMode := true
            commentBox :=
              (E.textinput_Update (Msg.KeyMsg k) (E.textinput_Focus m.commentBox).1).1 },
          batch [libCmd
            (E.textinput_Update (Msg.KeyMsg k) (E.textinput_Focus m.commentBox).1).2])) := by
  constructor
  · intro hi hf
    simp [Update, dispatch, updateEditTask, editForward, hstate, hcmd, hins, hkey, hi, hf]
  · intro ha hf
    simp [Update, dispatch, updateEditTask, editForward, hstate, hcmd, hins, hkey, ha, hf]

/-- The failing input of C18: the editor in normal mode with description `old text` and
an empty comment.  The key `i` leaves the description `old texti`; the key `a` leaves the
comment `a`. -/
theorem normal_mode_key_reaches_buffer_witness :
    (editingNormal "old text" "").state = viewState.editTaskView ∧
    (editingNormal "old text" "").commandMode = false ∧
    (editingNormal "old text" "").insertMode = false ∧
    bubbles.textarea_Value (editingNormal "old text" "").descriptionBox = "old text" ∧
    bubbles.textinput_Value (editingNormal "old text" "").commentBox = "" ∧
    (Update bubbles (editingNormal "old text" "") (Msg.KeyMsg (runeKey "i"))).map
        (fun r => (r.1.insertMode, bubbles.textarea_Value r.1.descriptionBox,
          bubbles.textinput_Value r.1.commentBox))
      = some (true, "old texti", "") ∧
    (Update bubbles (editingNormal "old text" "") (Msg.KeyMsg (runeKey "a"))).map
        (fun r => (r.1.insertMode, bubbles.textarea_Value r.1.descriptionBox,
          bubbles.textinput_Value r.1.commentBox))
      = some (true, "old text", "a") ∧
    (((runeKey "i").str = "i" →
      bubbles.textarea_Focused
        (bubbles.textarea_Focus (editingNormal "old text" "").descriptionBox).1 = true →
      Update bubbles (editingNormal "old text" "") (Msg.KeyMsg (runeKey "i")) =
        some ({ editingNormal "old text" "" with
            insertMode := true
            descriptionBox :=
              (bubbles.textarea_Update (Msg.KeyMsg (runeKey "i"))
                (bubbles.textarea_Focus (editingNormal "old text" "").descriptionBox).1).1 },
          batch [libCmd
            (bubbles.textarea_Update (Msg.KeyMsg (runeKey "i"))
              (bubbles.textarea_Focus (editingNormal "old text" "").descriptionBox).1).2])) ∧
    ((runeKey "i").str = "a" →
      bubbles.textarea_Focused (editingNormal "old text" "").descriptionBox = false →
      Update bubbles (editingNormal "old text" "") (Msg.KeyMsg (runeKey "i")) =
        some ({ editingNormal "old text" "" with
            insertMode := true
            commentBox :=
              (bubbles.textinput_Update (Msg.KeyMsg (runeKey "i"))
                (bubbles.textinput_Focus (editingNormal "old text" "").commentBox).1).1 },
          batch [libCmd
            (bubbles.textinput_Update (Msg.KeyMsg (runeKey "i"))
              (bubbles.textinput_Focus (editingNormal "old text" "").commentBox).1).2]))) :=
  ⟨rfl, rfl, rfl, rfl, rfl, by decide, by decide,
    normal_mode_key_reaches_buffer bubbles (editingNormal "old text" "") (runeKey "i")
      rfl rfl rfl (by decide)⟩

/-! ## Data results (C19) -/

/-- The tail of `updateEditTask` changes no non-widget field. -/
theorem editForward_data (E : Env) (msg : Msg) (m : model E) :
    (editForward E msg m).1.data = m.data := by
  unfold editForward
  split_ifs <;> rfl

/-- A data result the screen has no case for changes no non-widget field. -/
theorem data_unrecognised (E : Env) (m : model E) (msg : Msg)
    (hdata : isDataResult msg = true) (hrec : recognises m.state msg = false) :
    ∃ r, Update E m msg = some r ∧ r.1.data = m.data := by
  cases hs : m.state
  case editTaskView =>
    refine ⟨editForward E msg m, ?_, editForward_data E msg m⟩
    cases msg <;> simp [isDataResult] at hdata <;>
      simp [Update, dispatch, hs, updateEditTask]
  all_goals
    cases msg <;> simp [isDataResult] at hdata <;>
    simp [hs, recognises] at hrec <;>
    simp [Update, dispatch, hs, updateForm, updateInputs, updateSpaceSelection,
      updateListSelection, updateCreateTaskTitle, updateCreateTaskDesc,
      updateCreateTaskStatus, updateCreateTaskAssignee, updateCreateTaskPriority,
      updateTaskCreated, updateList, updateStatusUpdate, updateTaskDetail,
      updateDeleteConfirmation, updateTaskDeleted, model.data]

/-- No command is local. -/
theorem localCmds_nil (E : Env) (msg : Msg) : localCmds E msg [] := by
  simp [localCmds]

/-- What one widget returned is local. -/
theorem localCmds_one (E : Env) (msg : Msg) (x : Option LibCmd)
    (h : quietOn E msg → x ≠ some LibCmd.quit) : localCmds E msg (batch [libCmd x]) := by
  cases x with
  | none => simp [localCmds, batch, libCmd]
  | some lc =>
    cases lc with
    | quit =>
      refine ⟨?_, fun hq => absurd rfl (h hq)⟩
      simp [batch, libCmd, LibCmd.toCmd, Cmd.isRemoteOrPersist]
    | internal tag => simp [localCmds, batch, libCmd, LibCmd.toCmd, Cmd.isRemoteOrPersist]

/-- What the list widget returned is local. -/
theorem localCmds_list (E : Env) (msg : Msg) (l : E.ListModel) :
    localCmds E msg (batch [libCmd (E.list_Update msg l).2]) :=
  localCmds_one E msg _ fun hq => hq.2.2.1 l

/-- What a text input returned is local. -/
theorem localCmds_textinput (E : Env) (msg : Msg) (t : E.TextInput) :
    localCmds E msg (batch [libCmd (E.textinput_Update msg t).2]) :=
  localCmds_one E msg _ fun hq => hq.1 t

/-- What the text area returned is local. -/
theorem localCmds_textarea (E : Env) (msg : Msg) (t : E.TextArea) :
    localCmds E msg (batch [libCmd (E.textarea_Update msg t).2]) :=
  localCmds_one E msg _ fun hq => hq.2.1 t

/-- What the viewport returned is local. -/
theorem localCmds_viewport (E : Env) (msg : Msg) (v : E.Viewport) :
    localCmds E msg (batch [libCmd (E.viewport_Update msg v).2]) :=
  localCmds_one E msg _ fun hq => hq.2.2.2 v

/-- What the fields of the credential form returned is local. -/
theorem localCmds_inputs (E : Env) (msg : Msg) (ts : List E.TextInput) :
    localCmds E msg (batch (ts.map fun t => libCmd (E.textinput_Update msg t).2)) := by
  refine ⟨batch_libCmd_local ts (fun t => (E.textinput_Update msg t).2), ?_⟩
  intro hq hmem
  simp only [batch, List.mem_filterMap, List.mem_map] at hmem
  obtain ⟨o, ⟨t, _, rfl⟩, ho⟩ := hmem
  have := hq.1 t
  cases hx : (E.textinput_Update msg t).2 with
  | none => simp [libCmd, hx] at ho
  | some lc =>
    cases lc with
    | quit => exact this hx
    | internal tag => simp [libCmd, hx, LibCmd.toCmd] at ho

/-- What the tail of `updateEditTask` returned is local. -/
theorem localCmds_editForward (E : Env) (msg : Msg) (m : model E) :
    localCmds E msg (editForward E msg m).2 := by
  unfold editForward
  split_ifs
  · exact localCmds_textinput E msg _
  · exact localCmds_textarea E msg _
  · exact localCmds_textinput E msg _
  · exact localCmds_nil E msg

/-- A data result on any screen: the screen, `err` and `quitting` stay, `loading` stays
or is cleared by the task collection on the task list, the commands are local. -/
theorem data_result_frame (E : Env) (m : model E) (msg : Msg)
    (hdata : isDataResult msg = true) :
    ∃ r, Update E m msg = some r ∧ r.1.state = m.state ∧ r.1.err = m.err ∧
      r.1.quitting = m.quitting ∧
      (r.1.loading = m.loading ∨
        (m.state = viewState.listView ∧ (∃ xs, msg = Msg.items xs) ∧ r.1.loading = false)) ∧
      localCmds E msg r.2 := by
  cases hs : m.state
  case editTaskView =>
    have hf := editForward_frame E msg m
    refine ⟨editForward E msg m, ?_, hf.2.1.trans hs, hf.1, hf.2.2.1, Or.inl hf.2.2.2,
      localCmds_editForward E msg m⟩
    cases msg <;> simp [isDataResult] at hdata <;>
      simp [Update, dispatch, hs, updateEditTask]
  all_goals
    cases msg <;> simp [isDataResult] at hdata <;>
    simp [Update, dispatch, hs, updateForm, updateInputs, updateSpaceSelection,
      updateListSelection, updateCreateTaskTitle, updateCreateTaskDesc,
      updateCreateTaskStatus, updateCreateTaskAssignee, updateCreateTaskPriority,
      updateTaskCreated, updateList, updateStatusUpdate, updateTaskDetail,
      updateDeleteConfirmation, updateTaskDeleted, localCmds_nil, localCmds_list,
      localCmds_textinput, localCmds_textarea, localCmds_viewport, localCmds_inputs]

/-- Claim C19 as stated fails in its last sentence: a task-collection result, which is
a data result and not a sentinel, delivered to the task list while `loading` is true sets
`loading` to false. -/
theorem task_collection_clears_loading :
    isDataResult (Msg.items [Item.task sampleTask]) = true ∧
    (atTaskList true).state = viewState.listView ∧
    (atTaskList true).loading = true ∧
    (Update bubbles (atTaskList true) (Msg.items [Item.task sampleTask])).map
        (fun r => (r.1.state, r.1.loading))
      = some (viewState.listView, false) ∧
    (Update bubbles (atTaskList true) (Msg.items [Item.task sampleTask])).map
        (fun r => r.1.loading)
      ≠ some (atTaskList true).loading := by
  decide

/-- Claim C19, amended.  For every screen and every data result, `Update` returns a
session with the same screen, the same `err` and the same `quitting`; none of the
commands returned is remote or persistent, and none is `tea.Quit` unless a widget
answers the result with it; `loading` is unchanged, except that a task-collection result
on the task list sets it to false; and when the screen has no case for the result, no
non-widget field of the session changes. -/
theorem data_results_keep_screen (E : Env) (m : model E) (msg : Msg)
    (hdata : isDataResult msg = true) :
    ∃ r, Update E m msg = some r ∧ r.1.state = m.state ∧ r.1.err = m.err ∧
      r.1.quitting = m.quitting ∧
      (∀ c ∈ r.2, c.isRemoteOrPersist = false) ∧
      (quietOn E msg → Cmd.Quit ∉ r.2) ∧
      (r.1.loading = m.loading ∨
        (m.state = viewState.listView ∧ (∃ xs, msg = Msg.items xs) ∧ r.1.loading = false)) ∧
      (recognises m.state msg = false → r.1.data = m.data) := by
  obtain ⟨r, hr, h1, h2, h3, h4, h5, h6⟩ := data_result_frame E m msg hdata
  refine ⟨r, hr, h1, h2, h3, h5, h6, h4, ?_⟩
  intro hrec
  obtain ⟨r2, hr2, hd⟩ := data_unrecognised E m msg hdata hrec
  rw [hr] at hr2
  simp only [Option.some.injEq] at hr2
  subst hr2
  exact hd

/-- The amended C19 on the editor receiving a spaces result it has no case for. -/
theorem data_results_keep_screen_witness :
    isDataResult (Msg.SpacesResponse [⟨"s1", "Eng"⟩]) = true ∧
    recognises (editingNormal "old text" "").state (Msg.SpacesResponse [⟨"s1", "Eng"⟩])
      = false ∧
    ∃ r, Update bubbles (editingNormal "old text" "") (Msg.SpacesResponse [⟨"s1", "Eng"⟩])
        = some r ∧
      r.1.state = (editingNormal "old text" "").state ∧
      r.1.err = (editingNormal "old text" "").err ∧
      r.1.quitting = (editingNormal "old text" "").quitting ∧
      (∀ c ∈ r.2, c.isRemoteOrPersist = false) ∧
      (quietOn bubbles (Msg.SpacesResponse [⟨"s1", "Eng"⟩]) → Cmd.Quit ∉ r.2) ∧
      (r.1.loading = (editingNormal "old text" "").loading ∨
        ((editingNormal "old text" "").state = viewState.listView ∧
          (∃ xs, Msg.SpacesResponse [⟨"s1", "Eng"⟩] = Msg.items xs) ∧
          r.1.loading = false)) ∧
      (recognises (editingNormal "old text" "").state (Msg.SpacesResponse [⟨"s1", "Eng"⟩])
          = false →
        r.1.data = (editingNormal "old text" "").data) :=
  ⟨rfl, rfl,
    data_results_keep_screen bubbles (editingNormal "old text" "")
      (Msg.SpacesResponse [⟨"s1", "Eng"⟩]) rfl⟩

/-! ## The deletion animation (C20) -/

/-- A run over two lists of messages in a row. -/
theorem run_append (E : Env) (m : model E) (xs ys : List Msg) (r r2 : model E × List Cmd)
    (h1 : run E m xs = some r) (h2 : run E r.1 ys = some r2) :
    run E m (xs ++ ys) = some (r2.1, r.2 ++ r2.2) := by
  induction xs generalizing m r with
  | nil =>
    simp only [run, Option.some.injEq] at h1
    subst h1
    simp [h2]
  | cons x xs ih =>
    simp only [run] at h1
    split at h1
    · simp at h1
    · rename_i a ha
      split at h1
      · simp at h1
      · rename_i b hb
        simp only [Option.some.injEq] at h1
        subst h1
        have := ih a.1 b hb h2
        simp [run, ha, this]

/-- The animation step returns the frame command of the bar and the next tick. -/
theorem batch_tick_local (x : Option LibCmd) :
    ∀ c ∈ batch [libCmd x, some Cmd.tickAfter], c.isRemoteOrPersist = false := by
  intro c hc
  cases x with
  | none =>
    simp [batch, libCmd] at hc
    subst hc
    rfl
  | some lc =>
    simp [batch, libCmd] at hc
    rcases hc with rfl | rfl
    · exact LibCmd.toCmd_local lc
    · rfl

/-- One tick on the task-deleted screen below 100 percent: a quarter more. -/
theorem tick_step (E : Env) (hE : progressLaws E) (m : model E) (j : Nat)
    (hstate : m.state = viewState.taskDeletedView)
    (hp : E.progress_Percent m.progress = (j : Rat) / 4) (hj : j < 4) :
    ∃ r, Update E m Msg.tickMsg = some r ∧ r.1.state = viewState.taskDeletedView ∧
      E.progress_Percent r.1.progress = ((j + 1 : Nat) : Rat) / 4 ∧
      r.1.apiToken = m.apiToken ∧ r.1.teamID = m.teamID ∧ r.1.spaceID = m.spaceID ∧
      r.1.loading = m.loading ∧
      ∀ c ∈ r.2, c.isRemoteOrPersist = false := by
  have hne : E.progress_Percent m.progress ≠ 1 := by
    rw [hp]
    intro h
    have : (j : Rat) = 4 := by linarith
    have : j = 4 := by exact_mod_cast this
    omega
  have hu : Update E m Msg.tickMsg =
      some ({ m with progress := (E.progress_IncrPercent (1 / 4) m.progress).1 },
        batch [libCmd (E.progress_IncrPercent (1 / 4) m.progress).2, some Cmd.tickAfter]) := by
    simp [Update, dispatch, hstate, updateTaskDeleted, hne]
  refine ⟨_, hu, hstate, ?_, rfl, rfl, rfl, rfl, ?_⟩
  · show E.progress_Percent (E.progress_IncrPercent (1 / 4) m.progress).1 = _
    rw [hE.2, hp]
    have h1 : (j : Rat) / 4 + 1 / 4 = ((j + 1 : Nat) : Rat) / 4 := by push_cast; ring
    have h2 : ((j + 1 : Nat) : Rat) / 4 ≤ 1 := by
      have : ((j + 1 : Nat) : Rat) ≤ 4 := by exact_mod_cast hj
      linarith
    have h3 : (0 : Rat) ≤ ((j + 1 : Nat) : Rat) / 4 := by positivity
    rw [h1, min_eq_right h2, max_eq_right h3]
  · exact batch_tick_local _

/-- `n` ticks on the task-deleted screen, starting at `j` quarters with room for `n`. -/
theorem ticks_run (E : Env) (hE : progressLaws E) (n : Nat) :
    ∀ (m : model E) (j : Nat), m.state = viewState.taskDeletedView →
      E.progress_Percent m.progress = (j : Rat) / 4 → j + n ≤ 4 →
      ∃ r, run E m (ticks n) = some r ∧ r.1.state = viewState.taskDeletedView ∧
        E.progress_Percent r.1.progress = ((j + n : Nat) : Rat) / 4 ∧
        r.1.apiToken = m.apiToken ∧ r.1.teamID = m.teamID ∧ r.1.spaceID = m.spaceID ∧
        r.1.loading = m.loading ∧
        ∀ c ∈ r.2, c.isRemoteOrPersist = false := by
  induction n with
  | zero =>
    intro m j hs hp _
    exact ⟨(m, []), rfl, hs, hp, rfl, rfl, rfl, rfl, by simp⟩
  | succ n ih =>
    intro m j hs hp hj
    obtain ⟨r1, h1, s1, p1, a1, b1, c1, l1, k1⟩ := tick_step E hE m j hs hp (by omega)
    obtain ⟨r2, h2, s2, p2, a2, b2, c2, l2, k2⟩ := ih r1.1 (j + 1) s1 p1 (by omega)
    refine ⟨(r2.1, r1.2 ++ r2.2), ?_, s2, ?_, a2.trans a1, b2.trans b1, c2.trans c1,
      l2.trans l1, ?_⟩
    · simp [ticks, List.replicate_succ, run, h1]
      simp only [ticks] at h2
      simp [h2]
    · rw [p2]
      congr 2
      omega
    · intro c hc
      rcases List.mem_append.mp hc with h | h
      · exact k1 c h
      · exact k2 c h

/-- A tick on the task-deleted screen at 100 percent: back to the list, loading. -/
theorem tick_done (E : Env) (m : model E)
    (hstate : m.state = viewState.taskDeletedView)
    (hp : E.progress_Percent m.progress = 1) :
    Update E m Msg.tickMsg =
      some ({ m with state := viewState.listView, loading := true },
        [Cmd.fetchTasksCmd m.apiToken m.teamID m.spaceID]) := by
  simp [Update, dispatch, hstate, updateTaskDeleted, hp]

/-- Claim C20.  With a progress bar that starts at 0 and adds clamped to `[0, 1]`: on
the delete prompt `y` or `Y` sets the screen to task-deleted with the bar at 0 and issues
the delete command for the id of the remembered task (and the first tick).  After `n`
ticks, `n ≤ 4`, the screen is still task-deleted and the bar stands at `n / 4`, no remote
command having been issued; the fifth tick sets the screen to the task list with
`loading` true and issues the fetch-tasks command for the team and space. -/
theorem delete_animation_four_ticks (E : Env) (hE : progressLaws E) (m : model E) (k : Key)
    (hstate : m.state = viewState.deleteConfirmationView)
    (hkey : k.keyType ≠ KeyType.KeyCtrlC) (hyes : k.str = "y" ∨ k.str = "Y") :
    ∃ m1, Update E m (Msg.KeyMsg k) =
        some (m1, [Cmd.deleteTaskCmd m.apiToken m.selectedTask.ID, Cmd.tickNow]) ∧
      m1.state = viewState.taskDeletedView ∧ E.progress_Percent m1.progress = 0 ∧
      (∀ n, n ≤ 4 → ∃ r, run E m1 (ticks n) = some r ∧
        r.1.state = viewState.taskDeletedView ∧
        E.progress_Percent r.1.progress = (n : Rat) / 4 ∧
        ∀ c ∈ r.2, c.isRemoteOrPersist = false) ∧
      ∃ r4 r5, run E m1 (ticks 4) = some r4 ∧ Update E r4.1 Msg.tickMsg = some r5 ∧
        run E m1 (ticks 5) = some (r5.1, r4.2 ++ r5.2) ∧
        r5.1.state = viewState.listView ∧ r5.1.loading = true ∧
        r5.2 = [Cmd.fetchTasksCmd m.apiToken m.teamID m.spaceID] := by
  have hu : Update E m (Msg.KeyMsg k) =
      some ({ m with state := viewState.taskDeletedView, progress := E.progress_New },
        [Cmd.deleteTaskCmd m.apiToken m.selectedTask.ID, Cmd.tickNow]) := by
    simp [Update, dispatch, updateDeleteConfirmation, hstate, hkey, hyes, batch]
  have hp0 : E.progress_Percent
      ({ m with state := viewState.taskDeletedView, progress := E.progress_New } :
        model E).progress = ((0 : Nat) : Rat) / 4 := by
    show E.progress_Percent E.progress_New = _
    rw [hE.1]; simp
  refine ⟨_, hu, rfl, hE.1, ?_, ?_⟩
  · intro n hn
    obtain ⟨r, h1, h2, h3, _, _, _, _, h8⟩ :=
      ticks_run E hE n _ 0 rfl hp0 (by omega)
    exact ⟨r, h1, h2, by rw [h3]; simp, h8⟩
  · obtain ⟨r4, h1, h2, h3, a, b, c, _, _⟩ := ticks_run E hE 4 _ 0 rfl hp0 (by omega)
    have hp1 : E.progress_Percent r4.1.progress = 1 := by rw [h3]; norm_num
    have h5 := tick_done E r4.1 h2 hp1
    refine ⟨r4, _, h1, h5, ?_, rfl, rfl, ?_⟩
    · have : ticks 5 = ticks 4 ++ [Msg.tickMsg] := by simp [ticks, List.replicate_succ]
      rw [this]
      refine run_append E _ _ _ r4 _ h1 ?_
      simp [run, h5]
    · show [Cmd.fetchTasksCmd r4.1.apiToken r4.1.teamID r4.1.spaceID] = _
      rw [a, b, c]

/-- C20 on the delete prompt for `sampleTask`. -/
theorem delete_animation_four_ticks_witness :
    progressLaws bubbles ∧
    atDeleteConfirmation.state = viewState.deleteConfirmationView ∧
    (runeKey "y").keyType ≠ KeyType.KeyCtrlC ∧
    ((runeKey "y").str = "y" ∨ (runeKey "y").str = "Y") ∧
    ∃ m1, Update bubbles atDeleteConfirmation (Msg.KeyMsg (runeKey "y")) =
        some (m1, [Cmd.deleteTaskCmd "tok" "t1", Cmd.tickNow]) ∧
      m1.state = viewState.taskDeletedView ∧ bubbles.progress_Percent m1.progress = 0 ∧
      (∀ n, n ≤ 4 → ∃ r, run bubbles m1 (ticks n) = some r ∧
        r.1.state = viewState.taskDeletedView ∧
        bubbles.progress_Percent r.1.progress = (n : Rat) / 4 ∧
        ∀ c ∈ r.2, c.isRemoteOrPersist = false) ∧
      ∃ r4 r5, run bubbles m1 (ticks 4) = some r4 ∧
        Update bubbles r4.1 Msg.tickMsg = some r5 ∧
        run bubbles m1 (ticks 5) = some (r5.1, r4.2 ++ r5.2) ∧
        r5.1.state = viewState.listView ∧ r5.1.loading = true ∧
        r5.2 = [Cmd.fetchTasksCmd "tok" "team" "s1"] :=
  ⟨⟨rfl, fun _ _ => rfl⟩, rfl, by decide, Or.inl rfl,
    delete_animation_four_ticks bubbles ⟨rfl, fun _ _ => rfl⟩ atDeleteConfirmation
      (runeKey "y") rfl (by decide) (Or.inl rfl)⟩

/-! ## Starting without credentials (C21) -/

/-- The tail of `updateEditTask` changes neither the creation flag nor the screen. -/
theorem editForward_browsing (E : Env) (msg : Msg) (m : model E) :
    (editForward E msg m).1.isCreatingTask = m.isCreatingTask ∧
    (editForward E msg m).1.state = m.state := by
  unfold editForward
  split_ifs <;> simp

/-- The screen handlers keep a browsing session a browsing session. -/
theorem dispatch_browsing (E : Env) (m : model E) (msg : Msg) (r : model E × List Cmd)
    (h : browsingOnly E m) (hr : dispatch E m msg = some r) : browsingOnly E r.1 := by
  obtain ⟨h1, h2⟩ := h
  unfold browsingOnly
  cases hst : m.state <;> simp [hst, inWizard] at h2
  case formView =>
    simp only [dispatch, hst, updateForm, updateInputs] at hr
    (repeat' split at hr) <;> simp_all [inWizard] <;> (subst hr; simp_all [inWizard])
  case editTaskView =>
    simp only [dispatch, hst, updateEditTask, Option.some.injEq] at hr
    subst hr
    (repeat' split) <;> simp_all [inWizard, editForward_browsing]
  all_goals
    simp only [dispatch, hst, updateSpaceSelection, updateList, updateStatusUpdate,
      updateTaskDetail, updateDeleteConfirmation, updateTaskDeleted,
      Option.some.injEq] at hr
    subst hr
    (repeat' split) <;> simp_all [inWizard]

/-- `Update` keeps a browsing session a browsing session. -/
theorem Update_browsing (E : Env) (m : model E) (msg : Msg) (r : model E × List Cmd)
    (h : browsingOnly E m) (hr : Update E m msg = some r) : browsingOnly E r.1 := by
  unfold Update at hr
  split at hr
  · refine dispatch_browsing E _ _ r ?_ hr
    exact h
  · split_ifs at hr
    · simp only [Option.some.injEq] at hr
      subst hr
      exact h
    · exact dispatch_browsing E _ _ r h hr
  · exact dispatch_browsing E _ _ r h hr

/-- A run keeps a browsing session a browsing session. -/
theorem run_browsing (E : Env) (m : model E) (msgs : List Msg) (r : model E × List Cmd)
    (h : browsingOnly E m) (hr : run E m msgs = some r) : browsingOnly E r.1 := by
  induction msgs generalizing m r with
  | nil =>
    simp only [run, Option.some.injEq] at hr
    subst hr
    exact h
  | cons msg msgs ih =>
    simp only [run] at hr
    split at hr
    · simp at hr
    · rename_i r1 h1
      split at hr
      · simp at hr
      · rename_i r2 h2
        simp only [Option.some.injEq] at hr
        subst hr
        exact ih r1.1 r2 (Update_browsing E m msg r1 h h1) h2

/-- With both credentials `newModel` records the creation flag and starts on the space
picker. -/
theorem newModel_with_credentials (E : Env) (apiToken teamID : String) (creatingTask : Bool)
    (h1 : apiToken ≠ "") (h2 : teamID ≠ "") :
    (newModel E apiToken teamID creatingTask).isCreatingTask = creatingTask ∧
    (newModel E apiToken teamID creatingTask).state = viewState.spaceSelectionView := by
  simp [newModel, h1, h2]

/-- With a credential missing `newModel` starts on the form with the creation flag off
and the selection map nil, whatever `creatingTask` is. -/
theorem newModel_form (E : Env) (apiToken teamID : String) (creatingTask : Bool)
    (h : apiToken = "" ∨ teamID = "") :
    (newModel E apiToken teamID creatingTask).isCreatingTask = false ∧
    (newModel E apiToken teamID creatingTask).state = viewState.formView ∧
    (newModel E apiToken teamID creatingTask).selectedAssignees = none := by
  simp [newModel, h, model.zero]

/-- Claim C21, what the code does where the claim fails.  When a credential is missing,
`newModel` builds the form session without copying `creatingTask`: `isCreatingTask` is
false.  No event changes it afterwards, so in every session reached from there
`isCreatingTask` is false and the screen is none of the wizard screens: the list picker
is never reached, choosing a space opens the task list. -/
theorem missing_credential_never_reaches_wizard (E : Env) (apiToken teamID : String)
    (creatingTask : Bool) (msgs : List Msg) (m : model E)
    (hmissing : apiToken = "" ∨ teamID = "")
    (hrun : (run E (newModel E apiToken teamID creatingTask) msgs).map Prod.fst = some m) :
    (newModel E apiToken teamID creatingTask).isCreatingTask = false ∧
    m.isCreatingTask = false ∧ inWizard m.state = false := by
  have h0 := newModel_form E apiToken teamID creatingTask hmissing
  refine ⟨h0.1, ?_⟩
  cases hr : run E (newModel E apiToken teamID creatingTask) msgs with
  | none => simp [hr] at hrun
  | some r =>
    simp only [hr, Option.map_some', Option.some.injEq] at hrun
    subst hrun
    exact run_browsing E _ msgs r ⟨h0.1, by rw [h0.2.1]; rfl⟩ hr

/-- The failing input of C21: `newModel("", "", true)`, the task subcommand without stored
credentials.  After the credentials are typed and a space is chosen the screen is the
task list. -/
theorem missing_credential_never_reaches_wizard_witness :
    (("" : String) = "" ∨ ("" : String) = "") ∧
    (run bubbles (newModel bubbles "" "" true) taskStartKeys).map Prod.fst
      = some reachedFromForm ∧
    reachedFromForm.state = viewState.listView ∧
    reachedFromForm.apiToken = "k" ∧ reachedFromForm.teamID = "9" ∧
    reachedFromForm.spaceID = "s1" ∧
    ((newModel bubbles "" "" true).isCreatingTask = false ∧
      reachedFromForm.isCreatingTask = false ∧ inWizard reachedFromForm.state = false) :=
  ⟨Or.inl rfl, rfl, by decide, by decide, by decide, by decide,
    missing_credential_never_reaches_wizard bubbles "" "" true taskStartKeys reachedFromForm
      (Or.inl rfl) rfl⟩

/-! ## The focus index of the form (C22) -/

/-- Claim C22, what the code does where the claim fails.  On the credential form with
two fields and the focus on the last one (`focusIndex` = 1), `tab` or `down` moves
`focusIndex` to 2: the wrap test is `focusIndex > len(inputs)`, which 2 does not pass.
No field has index 2, so both fields are blurred and none is focused. -/
theorem focus_moves_past_last_field (E : Env) (m : model E) (k : Key) (i0 i1 : E.TextInput)
    (hstate : m.state = viewState.formView) (hkey : k.keyType ≠ KeyType.KeyCtrlC)
    (hnav : k.str = "tab" ∨ k.str = "down") (hinputs : m.inputs = [i0, i1])
    (hfocus : m.focusIndex = 1) :
    Update E m (Msg.KeyMsg k) =
      some ({ m with
          focusIndex := 2
          inputs := [E.textinput_SetPromptStyle Style.noStyle (E.textinput_Blur i0),
            E.textinput_SetPromptStyle Style.noStyle (E.textinput_Blur i1)] },
        []) := by
  rcases hnav with h | h <;>
    simp [Update, dispatch, updateForm, focusInputs, hstate, hkey, h, hinputs, hfocus, batch,
      libCmd]

/-- The failing input of C22: from the initial form (`focusIndex` = 0) two `tab` keys
give `focusIndex` = 2 with neither field focused; the step from 1 to 2 is the theorem on
the form with the focus on the last field. -/
theorem focus_moves_past_last_field_witness :
    formStart.state = viewState.formView ∧ formStart.focusIndex = 0 ∧
    (run bubbles formStart [Msg.KeyMsg tabKey, Msg.KeyMsg tabKey]).map
        (fun r => (r.1.state, r.1.focusIndex, r.1.inputs.map fun t => t.focus))
      = some (viewState.formView, 2, [false, false]) ∧
    (formFilled "k" "9").state = viewState.formView ∧
    tabKey.keyType ≠ KeyType.KeyCtrlC ∧ (tabKey.str = "tab" ∨ tabKey.str = "down") ∧
    (formFilled "k" "9").focusIndex = 1 ∧
    Update bubbles (formFilled "k" "9") (Msg.KeyMsg tabKey) =
      some ({ formFilled "k" "9" with
          focusIndex := 2
          inputs :=
            [bubbles.textinput_SetPromptStyle Style.noStyle
                (bubbles.textinput_Blur { TextField.new with value := "k" }),
              bubbles.textinput_SetPromptStyle Style.noStyle
                (bubbles.textinput_Blur { TextField.new with value := "9", focus := true })] },
        []) :=
  ⟨rfl, rfl, by decide, rfl, by decide, Or.inl rfl, rfl,
    focus_moves_past_last_field bubbles (formFilled "k" "9") tabKey
      { TextField.new with value := "k" } { TextField.new with value := "9", focus := true }
      rfl (by decide) (Or.inl rfl) rfl rfl⟩

/-- The focus loop keeps the number of fields. -/
theorem focusInputs_length (E : Env) (fi : Int) (ts : List E.TextInput) (i : Nat) :
    (focusInputs E fi i ts).length = ts.length := by
  induction ts generalizing i with
  | nil => rfl
  | cons t ts ih => simp [focusInputs, ih]

/-- What does hold on the form with two fields: `focusIndex` stays between 0 and 2,
the upper end included. -/
theorem focusIndex_bounds (E : Env) (m : model E) (msg : Msg) (r : model E × List Cmd)
    (hstate : m.state = viewState.formView) (hlen : m.inputs.length = 2)
    (hb : 0 ≤ m.focusIndex ∧ m.focusIndex ≤ 2) (hr : Update E m msg = some r) :
    0 ≤ r.1.focusIndex ∧ r.1.focusIndex ≤ 2 ∧ r.1.inputs.length = 2 := by
  unfold Update at hr
  simp only [dispatch, hstate, updateForm, updateInputs, hlen] at hr
  (repeat' split at hr) <;> simp_all <;>
    (subst hr; simp_all [focusInputs_length])

/-! ## The comment body (C23) -/

/-- Characters that stand for themselves, then a quote: the string decodes to them. -/
theorem jsonStringTail_safe (cs rest : List Char) (h : ∀ ch ∈ cs, safeChar ch = true) :
    jsonStringTail (cs ++ quoteChar :: rest) = some (cs, rest) := by
  induction cs with
  | nil =>
    rw [List.nil_append, jsonStringTail.eq_def]
    simp
  | cons c cs ih =>
    have hc : safeChar c = true := h c (List.mem_cons_self c cs)
    simp only [safeChar, decide_eq_true_eq] at hc
    have ih2 := ih fun ch hch => h ch (List.mem_cons_of_mem c hch)
    have hctl : ¬ c.toNat < 32 := by omega
    rw [List.cons_append, jsonStringTail.eq_def]
    simp [hc.1, hc.2.1, hctl, ih2]

/-- A decoded string is no longer than what was read, and as long only when every
character read stands for itself. -/
theorem jsonStringTail_sound (n : Nat) :
    ∀ (l : List Char), l.length ≤ n → ∀ r, jsonStringTail l = some r →
      ∃ raw, l = raw ++ quoteChar :: r.2 ∧ r.1.length ≤ raw.length ∧
        (r.1.length = raw.length → r.1 = raw ∧ ∀ ch ∈ raw, safeChar ch = true) := by
  induction n with
  | zero =>
    intro l hl r hr
    cases l with
    | nil => simp [jsonStringTail] at hr
    | cons c rest => simp at hl
  | succ n ih =>
    intro l hl r hr
    cases l with
    | nil => simp [jsonStringTail] at hr
    | cons c rest =>
      rw [jsonStringTail.eq_def] at hr
      simp only at hr
      split_ifs at hr with hq hb hctl
      · simp only [Option.some.injEq] at hr
        subst hr
        exact ⟨[], by simp [hq], by simp, fun _ => ⟨rfl, by simp⟩⟩
      · split at hr
        · simp at hr
        · rename_i e rest2
          split_ifs at hr with hu
          · split at hr
            · rename_i a b c3 d rest3
              split at hr
              · rename_i ch r2 _ hr2
                simp only [Option.some.injEq] at hr
                subst hr
                obtain ⟨raw, h1, h2, _⟩ := ih rest3 (by simp at hl; omega) r2 hr2
                refine ⟨c :: e :: a :: b :: c3 :: d :: raw, by simp [h1], by simp; omega, ?_⟩
                intro hlen
                simp at hlen
                omega
              · simp at hr
            · simp at hr
          · split at hr
            · rename_i ch r2 _ hr2
              simp only [Option.some.injEq] at hr
              subst hr
              obtain ⟨raw, h1, h2, _⟩ := ih rest2 (by simp at hl; omega) r2 hr2
              refine ⟨c :: e :: raw, by simp [h1], by simp; omega, ?_⟩
              intro hlen
              simp at hlen
              omega
            · simp at hr
      · split at hr
        · rename_i r2 hr2
          simp only [Option.some.injEq] at hr
          subst hr
          obtain ⟨raw, h1, h2, h3⟩ := ih rest (by simp at hl; omega) r2 hr2
          refine ⟨c :: raw, by simp [h1], by simp; omega, ?_⟩
          intro hlen
          simp at hlen
          obtain ⟨e1, e2⟩ := h3 hlen
          refine ⟨by simp [e1], ?_⟩
          intro ch hch
          rcases List.mem_cons.mp hch with rfl | hmem
          · simp only [safeChar, decide_eq_true_eq]
            exact ⟨hq, hb, by omega⟩
          · exact e2 ch hmem
        · simp at hr

/-- The characters of the body built for a non-empty text: the opening, the text as it
is, a quote and a closing brace. -/
theorem postCommentSent_data (c : String) (hne : c ≠ "") :
    postCommentSent c
      = some (String.mk (commentBodyOpening ++ (c.data ++ [quoteChar, Char.ofNat 125]))) := by
  simp only [postCommentSent, hne, if_false, Option.some.injEq]
  apply String.ext
  simp [String.data_append, commentBodyOpening]
  rfl

/-- A character that is not whitespace stops `skipSpace`. -/
theorem skipSpace_cons (c : Char) (l : List Char) (h : isJsonSpace c = false) :
    skipSpace (c :: l) = c :: l := by
  simp [skipSpace, h]

/-- Reading the character that is there. -/
theorem dropChar_self (c : Char) (l : List Char) : dropChar c (c :: l) = some l := by
  simp [dropChar]

/-- The opening spelled out. -/
theorem commentBodyOpening_eq (l : List Char) :
    commentBodyOpening ++ l
      = Char.ofNat 123 :: quoteChar ::
          ("comment_text".data ++ quoteChar :: (':' :: ' ' :: quoteChar :: l)) := by
  rfl

/-- Decoding a body that starts with the opening comes down to decoding the value. -/
theorem decodeCommentChars_opening (l : List Char) :
    decodeCommentChars (commentBodyOpening ++ l) = decodeCommentValue l := by
  have hkey : jsonStringTail ("comment_text".data ++ quoteChar :: (':' :: ' ' :: quoteChar :: l))
      = some ("comment_text".data, ':' :: ' ' :: quoteChar :: l) :=
    jsonStringTail_safe _ _ (by decide)
  have s1 : ∀ t, skipSpace (Char.ofNat 123 :: t) = Char.ofNat 123 :: t :=
    fun t => skipSpace_cons _ t (by decide)
  have s2 : ∀ t, skipSpace (quoteChar :: t) = quoteChar :: t :=
    fun t => skipSpace_cons _ t (by decide)
  have s3 : ∀ t, skipSpace (':' :: t) = ':' :: t :=
    fun t => skipSpace_cons _ t (by decide)
  have s4 : ∀ t, skipSpace (' ' :: t) = skipSpace t := by
    intro t
    rw [skipSpace]
    simp only [show isJsonSpace ' ' = true by decide, if_true]
  simp only [commentBodyOpening_eq, decodeCommentChars, decodeCommentValue, s1, s2, s3, s4,
    dropChar_self, hkey, ne_eq, not_true_eq_false, if_false]

/-- A text of characters that stand for themselves decodes to itself. -/
theorem decodeCommentValue_safe (cs : List Char) (h : ∀ ch ∈ cs, safeChar ch = true) :
    decodeCommentValue (cs ++ [quoteChar, Char.ofNat 125]) = some cs := by
  have h1 : jsonStringTail (cs ++ quoteChar :: [Char.ofNat 125]) = some (cs, [Char.ofNat 125]) :=
    jsonStringTail_safe cs _ h
  have h2 : skipSpace [Char.ofNat 125] = [Char.ofNat 125] := skipSpace_cons _ _ (by decide)
  have h3 : skipSpace ([] : List Char) = [] := rfl
  simp only [decodeCommentValue, h1, h2, dropChar_self, h3, if_true]

/-- A text that decodes to itself has only characters that stand for themselves. -/
theorem decodeCommentValue_exact (cs : List Char)
    (h : decodeCommentValue (cs ++ [quoteChar, Char.ofNat 125]) = some cs) :
    ∀ ch ∈ cs, safeChar ch = true := by
  unfold decodeCommentValue at h
  split at h
  · simp at h
  · rename_i value hv
    obtain ⟨raw, h1, h2, h3⟩ := jsonStringTail_sound _ _ (le_refl _) value hv
    split at h
    · simp at h
    · rename_i l7 hd
      split_ifs at h
      simp only [Option.some.injEq] at h
      have hlen := congrArg List.length h1
      simp only [List.length_append, List.length_cons, List.length_nil] at hlen
      rw [h] at h2 h3
      by_cases hl : cs.length = raw.length
      · obtain ⟨e1, e2⟩ := h3 hl
        rw [e1]
        exact e2
      · have hv2 : value.2 = [] := by
          apply List.eq_nil_of_length_eq_zero
          omega
        rw [hv2] at hd
        simp [skipSpace, dropChar] at hd

/-- Claim C23, what the code does.  `postCommentCmd` splices the text into the JSON
template as it is, so for a non-empty text `c` the body is a well-formed object whose
`comment_text` decodes to `c` exactly when no character of `c` is a double quote, a
backslash or a control character (a newline is one). -/
theorem comment_body_decodes_only_plain_text (c : String) (hne : c ≠ "") :
    (postCommentSent c).bind decodeCommentBody = some c ↔
      ∀ ch ∈ c.data, safeChar ch = true := by
  rw [postCommentSent_data c hne]
  simp only [Option.some_bind, decodeCommentBody, decodeCommentChars_opening]
  constructor
  · intro h
    apply decodeCommentValue_exact
    cases hd : decodeCommentValue (c.data ++ [quoteChar, Char.ofNat 125]) with
    | none => simp [hd] at h
    | some v =>
      simp only [hd, Option.map_some', Option.some.injEq] at h
      rw [← h]
  · intro h
    rw [decodeCommentValue_safe c.data h]
    rfl

/-- The failing input of C23: the text `say "hi"`.  The body is
`{"comment_text": "say "hi""}`, which is not a JSON object.  A text with a backslash,
`a\nb`, gives a body that decodes to another text, and a text with a newline gives a
body that does not decode. -/
theorem comment_body_decodes_only_plain_text_witness :
    ("say \"hi\"" : String) ≠ "" ∧
    postCommentSent "say \"hi\"" = some "\x7b\"comment_text\": \"say \"hi\"\"\x7d" ∧
    (postCommentSent "say \"hi\"").bind decodeCommentBody = none ∧
    (postCommentSent "a\\nb").bind decodeCommentBody = some "a\nb" ∧
    (postCommentSent "a\nb").bind decodeCommentBody = none ∧
    (postCommentSent "plain text").bind decodeCommentBody = some "plain text" ∧
    ((postCommentSent "say \"hi\"").bind decodeCommentBody = some "say \"hi\"" ↔
      ∀ ch ∈ ("say \"hi\"" : String).data, safeChar ch = true) :=
  ⟨by decide, by decide, by decide, by decide, by decide, by decide,
    comment_body_decodes_only_plain_text "say \"hi\"" (by decide)⟩

end Clup
